import Mathlib

/-!
Shallow embedding of the double-entry credit ledger in `app/core/credit.py`
(orchestrators `recharge`, `reward`, `adjustment`, `update_daily_quota`,
`expense_message`, and the query layer).  Amounts are Python `Decimal`s,
embedded as `ℚ`; identifiers produced by the monotonic XID generator are
embedded as `Nat` (the generator only promises monotonically increasing,
lexicographically sortable unique ids).  Database sessions with rollback
become `Except`: an orchestrator either returns the updated store (commit)
or an error with the original store untouched (rollback).
-/

namespace Credit

/-- `OwnerType` enum of `models/credit.py`. -/
inductive OwnerType where
  | USER
  | AGENT
  | PLATFORM
deriving DecidableEq, Repr

/-- `CreditType` enum: the three pools. -/
inductive CreditType where
  | PERMANENT
  | FREE
  | REWARD
deriving DecidableEq, Repr

/-- `EventType` enum. -/
inductive EventType where
  | RECHARGE
  | REWARD
  | ADJUSTMENT
  | MESSAGE
deriving DecidableEq, Repr

/-- `UpstreamType` enum. -/
inductive UpstreamType where
  | API
  | EXECUTOR
deriving DecidableEq, Repr

/-- `Direction` enum. -/
inductive Direction where
  | INCOME
  | EXPENSE
deriving DecidableEq, Repr

/-- `TransactionType` enum. -/
inductive TransactionType where
  | RECHARGE
  | REWARD
  | ADJUSTMENT
  | PAY
  | RECEIVE_FEE_PLATFORM
  | RECEIVE_FEE_AGENT
deriving DecidableEq, Repr

/-- `CreditDebit` enum. -/
inductive CreditDebit where
  | CREDIT
  | DEBIT
deriving DecidableEq, Repr

/-- Error kinds of the ledger (spec §7); the Python code raises
`ValueError` / `HTTPException`, classified here by the raise site. -/
inductive Err where
  | DuplicateUpstreamTx
  | InvalidAmount
  | MissingNote
  | InsufficientFunds
  | AccountNotFound
  | NotFound
deriving DecidableEq, Repr

/-- The reserved platform owner ids (`DEFAULT_PLATFORM_ACCOUNT_*`). -/
def PLATFORM_RECHARGE : String := "recharge"

def PLATFORM_REWARD : String := "reward"

def PLATFORM_ADJUSTMENT : String := "adjustment"

def PLATFORM_FEE : String := "fee"

/-- `CreditAccount` row: one per `(owner_type, owner_id)`, three balance
pools, quota settings and the hourly-refill timestamp (embedded as whole
hours on a `Nat` clock). -/
structure CreditAccount where
  id : Nat
  owner_type : OwnerType
  owner_id : String
  credits : ℚ
  free_credits : ℚ
  reward_credits : ℚ
  free_quota : ℚ
  refill_amount : ℚ
  last_refill_at : Nat
deriving DecidableEq, Repr

/-- `CreditEvent` row (the fields the core reads or writes). Fields the
source leaves at their nullable column default are `Option`s. -/
structure CreditEvent where
  id : Nat
  event_type : EventType
  upstream_type : UpstreamType
  upstream_tx_id : String
  direction : Direction
  account_id : Nat
  total_amount : ℚ
  credit_type : CreditType
  balance_after : ℚ
  base_amount : ℚ
  base_original_amount : ℚ
  base_llm_amount : Option ℚ
  fee_platform_amount : Option ℚ
  fee_agent_amount : Option ℚ
  fee_agent_account : Option Nat
  agent_id : Option String
  message_id : Option String
  start_message_id : Option String
  note : Option String
deriving DecidableEq, Repr

/-- `CreditTransaction` row: one leg of the double entry. -/
structure CreditTransaction where
  id : Nat
  account_id : Nat
  event_id : Nat
  tx_type : TransactionType
  credit_debit : CreditDebit
  change_amount : ℚ
  credit_type : CreditType
deriving DecidableEq, Repr

/-- The persistent store: the three tables, the monotonic id generator's
next value, and the wall clock in whole hours. -/
structure Store where
  accounts : List CreditAccount
  events : List CreditEvent
  txs : List CreditTransaction
  nextId : Nat
  now : Nat
deriving DecidableEq, Repr

def Store.empty : Store := ⟨[], [], [], 0, 0⟩

/-- Draw a fresh id from the monotonic generator (`str(XID())`). -/
def Store.freshId (s : Store) : Nat × Store :=
  (s.nextId, { s with nextId := s.nextId + 1 })

/-- The unique `(owner_type, owner_id)` key test on account rows. -/
def keyP (ot : OwnerType) (oid : String) (a : CreditAccount) : Bool :=
  a.owner_type == ot && a.owner_id == oid

/-- Look an account up by its unique `(owner_type, owner_id)` key. -/
def Store.getAccount (s : Store) (ot : OwnerType) (oid : String) :
    Option CreditAccount :=
  s.accounts.find? (keyP ot oid)

/-- Write back the row holding `acc`'s `(owner_type, owner_id)` key. -/
def Store.setAccount (s : Store) (acc : CreditAccount) : Store :=
  { s with
    accounts := s.accounts.map (fun a =>
      if keyP acc.owner_type acc.owner_id a then acc else a) }

/-- The pool named by a `credit_type`
(`PERMANENT → credits`, `FREE → free_credits`, `REWARD → reward_credits`). -/
def CreditAccount.pool (a : CreditAccount) : CreditType → ℚ
  | CreditType.PERMANENT => a.credits
  | CreditType.FREE => a.free_credits
  | CreditType.REWARD => a.reward_credits

/-- Add `amount` to the pool named by `ct`. -/
def CreditAccount.addPool (a : CreditAccount) (ct : CreditType) (amount : ℚ) :
    CreditAccount :=
  match ct with
  | CreditType.PERMANENT => { a with credits := a.credits + amount }
  | CreditType.FREE => { a with free_credits := a.free_credits + amount }
  | CreditType.REWARD => { a with reward_credits := a.reward_credits + amount }

/-- Modelled from the spec: the hourly refill hook of §4.2 (the code lives
in `models/credit.py`, which is not in `src/`).  On a locked read, if the
last refill is at least one hour behind the clock and `refill_amount > 0`,
set `free_credits = min(free_quota, free_credits + refill_amount × hours)`
and stamp `last_refill_at`; no ledger event is recorded. -/
def CreditAccount.applyRefill (a : CreditAccount) (now : Nat) : CreditAccount :=
  if a.last_refill_at + 1 ≤ now ∧ 0 < a.refill_amount then
    { a with
      free_credits :=
        min a.free_quota
          (a.free_credits + a.refill_amount * ((now - a.last_refill_at : Nat) : ℚ)),
      last_refill_at := now }
  else a

/-- Modelled from the spec: `CreditAccount.get_or_create_in_session`
(§4.1, code in `models/credit.py`, not in `src/`) — return the account,
inserting a zeroed row (stamped with the current hour) if absent. -/
def getOrCreateInSession (s : Store) (ot : OwnerType) (oid : String) :
    Store × CreditAccount :=
  match s.getAccount ot oid with
  | some a => (s, a)
  | none =>
    let (i, s) := s.freshId
    let a : CreditAccount :=
      { id := i, owner_type := ot, owner_id := oid, credits := 0,
        free_credits := 0, reward_credits := 0, free_quota := 0,
        refill_amount := 0, last_refill_at := s.now }
    ({ s with accounts := s.accounts ++ [a] }, a)

/-- Modelled from the spec: `CreditAccount.income_in_session` (§4.1, code
in `models/credit.py`, not in `src/`) — lock the account, refill if due,
add `amount` to the pool named by `credit_type`; `InvalidAmount` if
`amount ≤ 0`. -/
def incomeInSession (s : Store) (ot : OwnerType) (oid : String)
    (amount : ℚ) (ct : CreditType) : Except Err (Store × CreditAccount) :=
  if amount ≤ 0 then Except.error Err.InvalidAmount
  else
    let (s, a) := getOrCreateInSession s ot oid
    let a := (a.applyRefill s.now).addPool ct amount
    Except.ok (s.setAccount a, a)

/-- Modelled from the spec: `CreditAccount.deduction_in_session` (§4.1,
code in `models/credit.py`, not in `src/`) — lock the account, refill if
due, subtract `amount` from the named pool; `InsufficientFunds` if the
pool balance is below `amount`, except that platform accounts may go
negative (§4.4.1: they represent money owed to the system, and §8
scenario 1 drives platform RECHARGE to −100). -/
def deductionInSession (s : Store) (ot : OwnerType) (oid : String)
    (ct : CreditType) (amount : ℚ) : Except Err (Store × CreditAccount) :=
  let (s', a) := getOrCreateInSession s ot oid
  let a := a.applyRefill s'.now
  if ot ≠ OwnerType.PLATFORM ∧ a.pool ct < amount then
    Except.error Err.InsufficientFunds
  else
    let a := a.addPool ct (-amount)
    Except.ok (s'.setAccount a, a)

/-- Modelled from the spec: the tri-pool split of
`CreditAccount.expense_in_session` (§4.1): consume `amount` in the fixed
order free_credits → reward_credits → credits; return the three new pool
values and the `credit_type` of the deepest pool touched. -/
def expenseSplit (free rewardp credits amount : ℚ) : ℚ × ℚ × ℚ × CreditType :=
  let useFree := min free amount
  let rem1 := amount - useFree
  let useReward := min rewardp rem1
  let rem2 := rem1 - useReward
  let ct :=
    if 0 < rem2 then CreditType.PERMANENT
    else if 0 < useReward then CreditType.REWARD
    else CreditType.FREE
  (free - useFree, rewardp - useReward, credits - rem2, ct)

/-- Modelled from the spec: `CreditAccount.expense_in_session` (§4.1, code
in `models/credit.py`, not in `src/`) — lock the account, refill if due,
consume `amount` across the three pools in the order
free_credits → reward_credits → credits; `InsufficientFunds` if the three
pools together cannot cover `amount`; also returns the `credit_type` of
the deepest pool touched. -/
def expenseInSession (s : Store) (ot : OwnerType) (oid : String)
    (amount : ℚ) : Except Err (Store × CreditAccount × CreditType) :=
  let (s', a) := getOrCreateInSession s ot oid
  let a := a.applyRefill s'.now
  if a.free_credits + a.reward_credits + a.credits < amount then
    Except.error Err.InsufficientFunds
  else
    let r := expenseSplit a.free_credits a.reward_credits a.credits amount
    let a := { a with free_credits := r.1, reward_credits := r.2.1,
                      credits := r.2.2.1 }
    Except.ok (s'.setAccount a, a, r.2.2.2)

/-- Modelled from the spec: `CreditEvent.check_upstream_tx_id_exists`
(§4.3, code in `models/credit.py`, not in `src/`) — fail with
`DuplicateUpstreamTx` when an event with the same
`(upstream_type, upstream_tx_id)` already exists. -/
def checkUpstreamTxIdExists (s : Store) (ut : UpstreamType)
    (txid : String) : Except Err Unit :=
  if s.events.any (fun e => e.upstream_type == ut && e.upstream_tx_id == txid)
  then Except.error Err.DuplicateUpstreamTx
  else Except.ok ()

/-- `recharge` of `app/core/credit.py`: idempotency check, positive-amount
check, credit the user's permanent pool, debit platform RECHARGE, one
INCOME event with `balance_after` the sum of the user's three pools, one
CREDIT leg on the user and one DEBIT leg on platform RECHARGE. -/
def recharge (s : Store) (user_id : String) (amount : ℚ)
    (upstream_tx_id : String) (note : Option String) :
    Except Err (Store × CreditAccount) := do
  let _ ← checkUpstreamTxIdExists s UpstreamType.API upstream_tx_id
  if amount ≤ 0 then throw Err.InvalidAmount
  let (s, user_account) ←
    incomeInSession s OwnerType.USER user_id amount CreditType.PERMANENT
  let (s, platform_account) ←
    deductionInSession s OwnerType.PLATFORM PLATFORM_RECHARGE
      CreditType.PERMANENT amount
  let (event_id, s) := s.freshId
  let event : CreditEvent :=
    { id := event_id, event_type := EventType.RECHARGE,
      upstream_type := UpstreamType.API, upstream_tx_id := upstream_tx_id,
      direction := Direction.INCOME, account_id := user_account.id,
      total_amount := amount, credit_type := CreditType.PERMANENT,
      balance_after := user_account.credits + user_account.free_credits
        + user_account.reward_credits,
      base_amount := amount, base_original_amount := amount,
      base_llm_amount := none, fee_platform_amount := none,
      fee_agent_amount := none, fee_agent_account := none,
      agent_id := none, message_id := none, start_message_id := none,
      note := note }
  let s := { s with events := s.events ++ [event] }
  let (tx1, s) := s.freshId
  let user_tx : CreditTransaction :=
    { id := tx1, account_id := user_account.id, event_id := event_id,
      tx_type := TransactionType.RECHARGE,
      credit_debit := CreditDebit.CREDIT, change_amount := amount,
      credit_type := CreditType.PERMANENT }
  let (tx2, s) := s.freshId
  let platform_tx : CreditTransaction :=
    { id := tx2, account_id := platform_account.id, event_id := event_id,
      tx_type := TransactionType.RECHARGE,
      credit_debit := CreditDebit.DEBIT, change_amount := amount,
      credit_type := CreditType.PERMANENT }
  let s := { s with txs := s.txs ++ [user_tx, platform_tx] }
  return (s, user_account)

/-- `reward` of `app/core/credit.py`: like `recharge` but on the reward
pool, debiting platform REWARD. -/
def rewardOp (s : Store) (user_id : String) (amount : ℚ)
    (upstream_tx_id : String) (note : Option String) :
    Except Err (Store × CreditAccount) := do
  let _ ← checkUpstreamTxIdExists s UpstreamType.API upstream_tx_id
  if amount ≤ 0 then throw Err.InvalidAmount
  let (s, user_account) ←
    incomeInSession s OwnerType.USER user_id amount CreditType.REWARD
  let (s, platform_account) ←
    deductionInSession s OwnerType.PLATFORM PLATFORM_REWARD
      CreditType.REWARD amount
  let (event_id, s) := s.freshId
  let event : CreditEvent :=
    { id := event_id, event_type := EventType.REWARD,
      upstream_type := UpstreamType.API, upstream_tx_id := upstream_tx_id,
      direction := Direction.INCOME, account_id := user_account.id,
      total_amount := amount, credit_type := CreditType.REWARD,
      balance_after := user_account.credits + user_account.free_credits
        + user_account.reward_credits,
      base_amount := amount, base_original_amount := amount,
      base_llm_amount := none, fee_platform_amount := none,
      fee_agent_amount := none, fee_agent_account := none,
      agent_id := none, message_id := none, start_message_id := none,
      note := note }
  let s := { s with events := s.events ++ [event] }
  let (tx1, s) := s.freshId
  let user_tx : CreditTransaction :=
    { id := tx1, account_id := user_account.id, event_id := event_id,
      tx_type := TransactionType.REWARD,
      credit_debit := CreditDebit.CREDIT, change_amount := amount,
      credit_type := CreditType.REWARD }
  let (tx2, s) := s.freshId
  let platform_tx : CreditTransaction :=
    { id := tx2, account_id := platform_account.id, event_id := event_id,
      tx_type := TransactionType.REWARD,
      credit_debit := CreditDebit.DEBIT, change_amount := amount,
      credit_type := CreditType.REWARD }
  let s := { s with txs := s.txs ++ [user_tx, platform_tx] }
  return (s, user_account)

/-- `adjustment` of `app/core/credit.py`: signed manual correction.  A
positive amount credits the user's named pool and debits platform
ADJUSTMENT; a negative amount debits the user (through
`deduction_in_session`, so the pool may reach zero but not go below) and
credits platform ADJUSTMENT.  The note is required. -/
def adjustment (s : Store) (user_id : String) (credit_type : CreditType)
    (amount : ℚ) (upstream_tx_id : String) (note : String) :
    Except Err (Store × CreditAccount) := do
  let _ ← checkUpstreamTxIdExists s UpstreamType.API upstream_tx_id
  if amount = 0 then throw Err.InvalidAmount
  if note = "" then throw Err.MissingNote
  let is_income := 0 < amount
  let abs_amount := |amount|
  let direction := if is_income then Direction.INCOME else Direction.EXPENSE
  let credit_debit_user :=
    if is_income then CreditDebit.CREDIT else CreditDebit.DEBIT
  let credit_debit_platform :=
    if is_income then CreditDebit.DEBIT else CreditDebit.CREDIT
  let (s, user_account) ←
    if is_income then
      incomeInSession s OwnerType.USER user_id abs_amount credit_type
    else
      deductionInSession s OwnerType.USER user_id credit_type abs_amount
  let (s, platform_account) ←
    if is_income then
      deductionInSession s OwnerType.PLATFORM PLATFORM_ADJUSTMENT
        credit_type abs_amount
    else
      incomeInSession s OwnerType.PLATFORM PLATFORM_ADJUSTMENT
        abs_amount credit_type
  let (event_id, s) := s.freshId
  let event : CreditEvent :=
    { id := event_id, event_type := EventType.ADJUSTMENT,
      upstream_type := UpstreamType.API, upstream_tx_id := upstream_tx_id,
      direction := direction, account_id := user_account.id,
      total_amount := abs_amount, credit_type := credit_type,
      balance_after := user_account.credits + user_account.free_credits
        + user_account.reward_credits,
      base_amount := abs_amount, base_original_amount := abs_amount,
      base_llm_amount := none, fee_platform_amount := none,
      fee_agent_amount := none, fee_agent_account := none,
      agent_id := none, message_id := none, start_message_id := none,
      note := some note }
  let s := { s with events := s.events ++ [event] }
  let (tx1, s) := s.freshId
  let user_tx : CreditTransaction :=
    { id := tx1, account_id := user_account.id, event_id := event_id,
      tx_type := TransactionType.ADJUSTMENT,
      credit_debit := credit_debit_user, change_amount := abs_amount,
      credit_type := credit_type }
  let (tx2, s) := s.freshId
  let platform_tx : CreditTransaction :=
    { id := tx2, account_id := platform_account.id, event_id := event_id,
      tx_type := TransactionType.ADJUSTMENT,
      credit_debit := credit_debit_platform, change_amount := abs_amount,
      credit_type := credit_type }
  let s := { s with txs := s.txs ++ [user_tx, platform_tx] }
  return (s, user_account)

/-- `update_daily_quota` of `app/core/credit.py`: settings-only update of
`free_quota` / `refill_amount` on the user's account, obtained via
get-or-create; at least one of the two must be supplied, a supplied
`free_quota` must be positive, a supplied `refill_amount` non-negative,
the effective pair must satisfy `refill_amount ≤ free_quota`, and the
note must be non-empty.  No event and no transaction leg is written. -/
def updateDailyQuota (s : Store) (user_id : String)
    (free_quota : Option ℚ) (refill_amount : Option ℚ) (note : String) :
    Except Err (Store × CreditAccount) := do
  if free_quota = none ∧ refill_amount = none then throw Err.InvalidAmount
  let (s, user_account) := getOrCreateInSession s OwnerType.USER user_id
  let fq ←
    match free_quota with
    | none => pure user_account.free_quota
    | some q => if q ≤ 0 then throw Err.InvalidAmount else pure q
  let ra ←
    match refill_amount with
    | none => pure user_account.refill_amount
    | some r => if r < 0 then throw Err.InvalidAmount else pure r
  if fq < ra then throw Err.InvalidAmount
  if note = "" then throw Err.MissingNote
  let user_account :=
    { user_account with free_quota := fq, refill_amount := ra }
  return (s.setAccount user_account, user_account)

/-- `expense_message` of `app/core/credit.py`: idempotency on
`(EXECUTOR, message_id)`, fee computation, tri-pool deduction of
`total_amount` from the user, platform FEE income, agent income when
`fee_agent_amount > 0`, one MESSAGE event and two or three legs.
`platform_fee_pct` is `config.payment_fee_platform_percentage`. -/
def expenseMessage (platform_fee_pct : ℚ) (s : Store) (agent_id : String)
    (user_id : String) (message_id : String) (start_message_id : String)
    (base_llm_amount : ℚ) (agent_fee_percentage : ℚ)
    (agent_owner_id : String) : Except Err (Store × CreditAccount) := do
  let _ ← checkUpstreamTxIdExists s UpstreamType.EXECUTOR message_id
  if base_llm_amount < 0 then throw Err.InvalidAmount
  let base_original_amount := base_llm_amount
  let base_amount := base_original_amount
  let fee_platform_amount := base_amount * platform_fee_pct
  let fee_agent_amount :=
    if user_id ≠ agent_owner_id then base_amount * agent_fee_percentage
    else 0
  let total_amount := base_amount + fee_platform_amount + fee_agent_amount
  let (s, user_account, credit_type) ←
    expenseInSession s OwnerType.USER user_id total_amount
  let (s, platform_account) ←
    incomeInSession s OwnerType.PLATFORM PLATFORM_FEE
      fee_platform_amount credit_type
  let (s, agent_account) ←
    if 0 < fee_agent_amount then do
      let (s, a) ←
        incomeInSession s OwnerType.AGENT agent_id fee_agent_amount
          credit_type
      pure (s, some a)
    else
      pure (s, (none : Option CreditAccount))
  let (event_id, s) := s.freshId
  let event : CreditEvent :=
    { id := event_id, event_type := EventType.MESSAGE,
      upstream_type := UpstreamType.EXECUTOR, upstream_tx_id := message_id,
      direction := Direction.EXPENSE, account_id := user_account.id,
      total_amount := total_amount, credit_type := credit_type,
      balance_after := user_account.credits + user_account.free_credits
        + user_account.reward_credits,
      base_amount := base_amount,
      base_original_amount := base_original_amount,
      base_llm_amount := some base_llm_amount,
      fee_platform_amount := some fee_platform_amount,
      fee_agent_amount := some fee_agent_amount,
      fee_agent_account :=
        if 0 < fee_agent_amount then agent_account.map (·.id) else none,
      agent_id := some agent_id, message_id := some message_id,
      start_message_id := some start_message_id, note := none }
  let s := { s with events := s.events ++ [event] }
  let (tx1, s) := s.freshId
  let user_tx : CreditTransaction :=
    { id := tx1, account_id := user_account.id, event_id := event_id,
      tx_type := TransactionType.PAY, credit_debit := CreditDebit.DEBIT,
      change_amount := total_amount, credit_type := credit_type }
  let (tx2, s) := s.freshId
  let platform_tx : CreditTransaction :=
    { id := tx2, account_id := platform_account.id, event_id := event_id,
      tx_type := TransactionType.RECEIVE_FEE_PLATFORM,
      credit_debit := CreditDebit.CREDIT,
      change_amount := fee_platform_amount, credit_type := credit_type }
  let s :=
    match agent_account with
    | some aa =>
      let (tx3, s) := s.freshId
      let agent_tx : CreditTransaction :=
        { id := tx3, account_id := aa.id, event_id := event_id,
          tx_type := TransactionType.RECEIVE_FEE_AGENT,
          credit_debit := CreditDebit.CREDIT,
          change_amount := fee_agent_amount, credit_type := credit_type }
      { s with txs := s.txs ++ [user_tx, platform_tx, agent_tx] }
    | none =>
      { s with txs := s.txs ++ [user_tx, platform_tx] }
  return (s, user_account)

/-- The ordering `ORDER BY id DESC` of the event queries. -/
def evIdGe (a b : CreditEvent) : Prop := b.id ≤ a.id

instance : DecidableRel evIdGe := fun a b =>
  inferInstanceAs (Decidable (b.id ≤ a.id))

instance : IsTotal CreditEvent evIdGe := ⟨fun a b => le_total b.id a.id⟩

instance : IsTrans CreditEvent evIdGe :=
  ⟨fun _ _ _ hab hbc => le_trans hbc hab⟩

/-- The WHERE clause of `list_credit_events_by_user`: account, direction,
optional event-type filter, optional cursor filter `id < cursor`. -/
def eventMatches (account_id : Nat) (direction : Direction)
    (event_type : Option EventType) (cursor : Option Nat)
    (e : CreditEvent) : Bool :=
  e.account_id == account_id && e.direction == direction &&
    (match event_type with
     | none => true
     | some t => e.event_type == t) &&
    (match cursor with
     | none => true
     | some c => e.id < c)

/-- `list_credit_events_by_user` of `app/core/credit.py`: missing account
returns `([], none, false)`; otherwise select the matching events ordered
by id descending, fetch `limit + 1`, report `has_more` when more than
`limit` came back, and truncate to `limit`. -/
def listCreditEventsByUser (s : Store) (user_id : String)
    (direction : Direction) (cursor : Option Nat) (limit : Nat)
    (event_type : Option EventType) :
    List CreditEvent × Option Nat × Bool :=
  match s.getAccount OwnerType.USER user_id with
  | none => ([], none, false)
  | some account =>
    let events_data :=
      ((s.events.filter
          (eventMatches account.id direction event_type cursor)).insertionSort
        evIdGe).take (limit + 1)
    let has_more := decide (limit < events_data.length)
    let events_to_return := events_data.take limit
    let next_cursor := (events_to_return.getLast?).map (·.id)
    (events_to_return, next_cursor, has_more)

/-- `fetch_credit_event_by_upstream_tx_id` of `app/core/credit.py`: the
query filters on `upstream_tx_id` alone (no `upstream_type` clause);
`session.scalar` yields the first row, and a miss raises 404. -/
def fetchCreditEventByUpstreamTxId (s : Store) (upstream_tx_id : String) :
    Except Err CreditEvent :=
  match s.events.find? (fun e => e.upstream_tx_id == upstream_tx_id) with
  | some e => Except.ok e
  | none => Except.error Err.NotFound

/-! ### Structural lemmas about the store primitives -/

theorem keyP_iff (ot : OwnerType) (oid : String) (a : CreditAccount) :
    keyP ot oid a = true ↔ a.owner_type = ot ∧ a.owner_id = oid := by
  simp [keyP]

theorem applyRefill_owner_type (a : CreditAccount) (now : Nat) :
    (a.applyRefill now).owner_type = a.owner_type := by
  unfold CreditAccount.applyRefill; split <;> rfl

theorem applyRefill_owner_id (a : CreditAccount) (now : Nat) :
    (a.applyRefill now).owner_id = a.owner_id := by
  unfold CreditAccount.applyRefill; split <;> rfl

theorem applyRefill_id (a : CreditAccount) (now : Nat) :
    (a.applyRefill now).id = a.id := by
  unfold CreditAccount.applyRefill; split <;> rfl

theorem applyRefill_credits (a : CreditAccount) (now : Nat) :
    (a.applyRefill now).credits = a.credits := by
  unfold CreditAccount.applyRefill; split <;> rfl

theorem applyRefill_reward_credits (a : CreditAccount) (now : Nat) :
    (a.applyRefill now).reward_credits = a.reward_credits := by
  unfold CreditAccount.applyRefill; split <;> rfl

theorem applyRefill_free_quota (a : CreditAccount) (now : Nat) :
    (a.applyRefill now).free_quota = a.free_quota := by
  unfold CreditAccount.applyRefill; split <;> rfl

theorem applyRefill_refill_amount (a : CreditAccount) (now : Nat) :
    (a.applyRefill now).refill_amount = a.refill_amount := by
  unfold CreditAccount.applyRefill; split <;> rfl

theorem addPool_owner_type (a : CreditAccount) (ct : CreditType) (x : ℚ) :
    (a.addPool ct x).owner_type = a.owner_type := by
  cases ct <;> rfl

theorem addPool_owner_id (a : CreditAccount) (ct : CreditType) (x : ℚ) :
    (a.addPool ct x).owner_id = a.owner_id := by
  cases ct <;> rfl

theorem addPool_id (a : CreditAccount) (ct : CreditType) (x : ℚ) :
    (a.addPool ct x).id = a.id := by
  cases ct <;> rfl

theorem addPool_pool_same (a : CreditAccount) (ct : CreditType) (x : ℚ) :
    (a.addPool ct x).pool ct = a.pool ct + x := by
  cases ct <;> rfl

theorem addPool_pool_ne (a : CreditAccount) (ct ct' : CreditType) (x : ℚ)
    (h : ct' ≠ ct) : (a.addPool ct x).pool ct' = a.pool ct' := by
  cases ct <;> cases ct' <;> first | rfl | exact absurd rfl h

theorem addPool_poolSum (a : CreditAccount) (ct : CreditType) (x : ℚ) :
    (a.addPool ct x).credits + (a.addPool ct x).free_credits
      + (a.addPool ct x).reward_credits
    = a.credits + a.free_credits + a.reward_credits + x := by
  cases ct <;> simp [CreditAccount.addPool] <;> ring

theorem setAccount_events (s : Store) (acc : CreditAccount) :
    (s.setAccount acc).events = s.events := rfl

theorem setAccount_txs (s : Store) (acc : CreditAccount) :
    (s.setAccount acc).txs = s.txs := rfl

theorem setAccount_now (s : Store) (acc : CreditAccount) :
    (s.setAccount acc).now = s.now := rfl

theorem setAccount_nextId (s : Store) (acc : CreditAccount) :
    (s.setAccount acc).nextId = s.nextId := rfl

theorem find?_map_replace_self (acc : CreditAccount)
    (l : List CreditAccount) :
    (l.map (fun a =>
        if keyP acc.owner_type acc.owner_id a then acc else a)).find?
        (keyP acc.owner_type acc.owner_id)
      = (l.find? (keyP acc.owner_type acc.owner_id)).map (fun _ => acc) := by
  induction l with
  | nil => rfl
  | cons a t ih =>
    by_cases hpa : keyP acc.owner_type acc.owner_id a = true
    · have hacc : keyP acc.owner_type acc.owner_id acc = true := by
        simp [keyP]
      simp only [List.map_cons, hpa, if_true]
      rw [List.find?_cons_of_pos _ hacc, List.find?_cons_of_pos _ hpa]
      rfl
    · simp only [List.map_cons]
      rw [if_neg hpa, List.find?_cons_of_neg _ hpa,
        List.find?_cons_of_neg _ hpa]
      exact ih

theorem find?_map_replace_ne (acc : CreditAccount) (ot : OwnerType)
    (oid : String) (l : List CreditAccount)
    (h : ¬(ot = acc.owner_type ∧ oid = acc.owner_id)) :
    (l.map (fun a =>
        if keyP acc.owner_type acc.owner_id a then acc else a)).find?
        (keyP ot oid)
      = l.find? (keyP ot oid) := by
  induction l with
  | nil => rfl
  | cons a t ih =>
    by_cases hpa : keyP acc.owner_type acc.owner_id a = true
    · have ha := (keyP_iff _ _ _).mp hpa
      have haq : keyP ot oid a = false := by
        rw [Bool.eq_false_iff]
        intro hq
        have hq' := (keyP_iff _ _ _).mp hq
        exact h ⟨ha.1 ▸ hq'.1.symm ▸ rfl, ha.2 ▸ hq'.2.symm ▸ rfl⟩
      have haccq : keyP ot oid acc = false := by
        rw [Bool.eq_false_iff]
        intro hq
        have hq' := (keyP_iff _ _ _).mp hq
        exact h ⟨hq'.1.symm, hq'.2.symm⟩
      simp only [List.map_cons, hpa, if_true]
      rw [List.find?_cons_of_neg _ (by simp [haccq]),
        List.find?_cons_of_neg _ (by simp [haq])]
      exact ih
    · simp only [List.map_cons]
      rw [if_neg hpa]
      by_cases hq : keyP ot oid a = true
      · rw [List.find?_cons_of_pos _ hq, List.find?_cons_of_pos _ hq]
      · rw [List.find?_cons_of_neg _ hq, List.find?_cons_of_neg _ hq]
        exact ih

theorem getAccount_setAccount_self (s : Store) (acc : CreditAccount) :
    (s.setAccount acc).getAccount acc.owner_type acc.owner_id
      = (s.getAccount acc.owner_type acc.owner_id).map (fun _ => acc) := by
  unfold Store.getAccount Store.setAccount
  exact find?_map_replace_self acc s.accounts

theorem getAccount_setAccount_ne (s : Store) (acc : CreditAccount)
    (ot : OwnerType) (oid : String)
    (h : ¬(ot = acc.owner_type ∧ oid = acc.owner_id)) :
    (s.setAccount acc).getAccount ot oid = s.getAccount ot oid := by
  unfold Store.getAccount Store.setAccount
  exact find?_map_replace_ne acc ot oid s.accounts h

theorem getOrCreateInSession_spec (s : Store) (ot : OwnerType)
    (oid : String) :
    (getOrCreateInSession s ot oid).2.owner_type = ot ∧
    (getOrCreateInSession s ot oid).2.owner_id = oid ∧
    (getOrCreateInSession s ot oid).1.getAccount ot oid
      = some (getOrCreateInSession s ot oid).2 ∧
    (getOrCreateInSession s ot oid).1.events = s.events ∧
    (getOrCreateInSession s ot oid).1.txs = s.txs ∧
    (getOrCreateInSession s ot oid).1.now = s.now ∧
    (∀ ot' oid', ¬(ot' = ot ∧ oid' = oid) →
      (getOrCreateInSession s ot oid).1.getAccount ot' oid'
        = s.getAccount ot' oid') := by
  unfold getOrCreateInSession
  cases h : s.getAccount ot oid with
  | some a =>
    have hk := (keyP_iff ot oid a).mp (List.find?_some h)
    dsimp only
    exact ⟨hk.1, hk.2, h, rfl, rfl, rfl, fun _ _ _ => rfl⟩
  | none =>
    dsimp only [Store.freshId]
    refine ⟨rfl, rfl, ?_, rfl, rfl, rfl, ?_⟩
    · show List.find? _ (s.accounts ++ [_]) = _
      rw [List.find?_append]
      unfold Store.getAccount at h
      rw [h]
      simp [keyP]
    · intro ot' oid' hne
      show List.find? _ (s.accounts ++ [_]) = _
      rw [List.find?_append]
      have hkf : keyP ot' oid'
          { id := s.nextId, owner_type := ot, owner_id := oid,
            credits := 0, free_credits := 0, reward_credits := 0,
            free_quota := 0, refill_amount := 0,
            last_refill_at := s.now } = false := by
        rw [Bool.eq_false_iff]
        intro hq
        exact hne ⟨((keyP_iff _ _ _).mp hq).1.symm ▸ rfl,
          ((keyP_iff _ _ _).mp hq).2.symm ▸ rfl⟩
      simp [List.find?, hkf, Store.getAccount]

theorem incomeInSession_ok {s : Store} {ot : OwnerType} {oid : String}
    {amount : ℚ} {ct : CreditType} {s' : Store} {a : CreditAccount}
    (h : incomeInSession s ot oid amount ct = Except.ok (s', a)) :
    0 < amount ∧
    a = ((getOrCreateInSession s ot oid).2.applyRefill s.now).addPool
      ct amount ∧
    a.owner_type = ot ∧ a.owner_id = oid ∧
    s'.getAccount ot oid = some a ∧
    (∀ ot' oid', ¬(ot' = ot ∧ oid' = oid) →
      s'.getAccount ot' oid' = s.getAccount ot' oid') ∧
    s'.events = s.events ∧ s'.txs = s.txs ∧ s'.now = s.now ∧
    s'.nextId = (getOrCreateInSession s ot oid).1.nextId := by
  unfold incomeInSession at h
  split at h
  · exact absurd h (by simp)
  · rename_i hle
    obtain ⟨hg1, hg2, hg3, hg4, hg5, hg6, hg7⟩ :=
      getOrCreateInSession_spec s ot oid
    cases hgo : getOrCreateInSession s ot oid with
    | mk s₁ a₀ =>
      rw [hgo] at h hg1 hg2 hg3 hg4 hg5 hg6 hg7
      dsimp only at h hg1 hg2 hg3 hg4 hg5 hg6 hg7
      injection h with h
      injection h with hs ha
      subst hs
      subst ha
      dsimp only
      rw [hg6]
      have hko : ((a₀.applyRefill s.now).addPool ct amount).owner_type
          = ot := by
        rw [addPool_owner_type, applyRefill_owner_type, hg1]
      have hki : ((a₀.applyRefill s.now).addPool ct amount).owner_id
          = oid := by
        rw [addPool_owner_id, applyRefill_owner_id, hg2]
      refine ⟨lt_of_not_le hle, rfl, hko, hki, ?_, ?_, ?_, ?_, ?_, rfl⟩
      · have hset := getAccount_setAccount_self s₁
          ((a₀.applyRefill s.now).addPool ct amount)
        rw [hko, hki, hg3] at hset
        exact hset
      · intro ot' oid' hne
        rw [getAccount_setAccount_ne _ _ _ _ (by rw [hko, hki]; exact hne)]
        exact hg7 ot' oid' hne
      · rw [setAccount_events]; exact hg4
      · rw [setAccount_txs]; exact hg5
      · rw [setAccount_now]; exact hg6

theorem deductionInSession_ok {s : Store} {ot : OwnerType} {oid : String}
    {ct : CreditType} {amount : ℚ} {s' : Store} {a : CreditAccount}
    (h : deductionInSession s ot oid ct amount = Except.ok (s', a)) :
    ¬(ot ≠ OwnerType.PLATFORM ∧
        ((getOrCreateInSession s ot oid).2.applyRefill s.now).pool ct
          < amount) ∧
    a = ((getOrCreateInSession s ot oid).2.applyRefill s.now).addPool
      ct (-amount) ∧
    a.owner_type = ot ∧ a.owner_id = oid ∧
    s'.getAccount ot oid = some a ∧
    (∀ ot' oid', ¬(ot' = ot ∧ oid' = oid) →
      s'.getAccount ot' oid' = s.getAccount ot' oid') ∧
    s'.events = s.events ∧ s'.txs = s.txs ∧ s'.now = s.now ∧
    s'.nextId = (getOrCreateInSession s ot oid).1.nextId := by
  unfold deductionInSession at h
  obtain ⟨hg1, hg2, hg3, hg4, hg5, hg6, hg7⟩ :=
    getOrCreateInSession_spec s ot oid
  cases hgo : getOrCreateInSession s ot oid with
  | mk s₁ a₀ =>
    rw [hgo] at h hg1 hg2 hg3 hg4 hg5 hg6 hg7
    dsimp only at h hg1 hg2 hg3 hg4 hg5 hg6 hg7
    split at h
    · exact absurd h (by simp)
    · rename_i hcond
      injection h with h
      injection h with hs ha
      subst hs
      subst ha
      dsimp only
      rw [hg6] at hcond ⊢
      have hko : ((a₀.applyRefill s.now).addPool ct (-amount)).owner_type
          = ot := by
        rw [addPool_owner_type, applyRefill_owner_type, hg1]
      have hki : ((a₀.applyRefill s.now).addPool ct (-amount)).owner_id
          = oid := by
        rw [addPool_owner_id, applyRefill_owner_id, hg2]
      refine ⟨hcond, rfl, hko, hki, ?_, ?_, ?_, ?_, ?_, rfl⟩
      · have hset := getAccount_setAccount_self s₁
          ((a₀.applyRefill s.now).addPool ct (-amount))
        rw [hko, hki, hg3] at hset
        exact hset
      · intro ot' oid' hne
        rw [getAccount_setAccount_ne _ _ _ _ (by rw [hko, hki]; exact hne)]
        exact hg7 ot' oid' hne
      · rw [setAccount_events]; exact hg4
      · rw [setAccount_txs]; exact hg5
      · rw [setAccount_now]; exact hg6

theorem deductionInSession_insufficient {s : Store} {ot : OwnerType}
    {oid : String} {ct : CreditType} {amount : ℚ}
    (hot : ot ≠ OwnerType.PLATFORM)
    (hlt : ((getOrCreateInSession s ot oid).2.applyRefill s.now).pool ct
      < amount) :
    deductionInSession s ot oid ct amount
      = Except.error Err.InsufficientFunds := by
  unfold deductionInSession
  obtain ⟨_, _, _, _, _, hg6, _⟩ := getOrCreateInSession_spec s ot oid
  cases hgo : getOrCreateInSession s ot oid with
  | mk s₁ a₀ =>
    rw [hgo] at hlt hg6
    dsimp only at hlt hg6 ⊢
    rw [hg6]
    rw [if_pos ⟨hot, hlt⟩]

/-- The account as read (and possibly refilled) by a primitive at the
start of its critical section. -/
def refilled (s : Store) (ot : OwnerType) (oid : String) : CreditAccount :=
  (getOrCreateInSession s ot oid).2.applyRefill s.now

/-- Overwrite the three pools at once (the write-back shape of
`expense_in_session`). -/
def setPools (a : CreditAccount) (f r c : ℚ) : CreditAccount :=
  { a with free_credits := f, reward_credits := r, credits := c }

theorem setPools_owner_type (a : CreditAccount) (f r c : ℚ) :
    (setPools a f r c).owner_type = a.owner_type := rfl

theorem setPools_owner_id (a : CreditAccount) (f r c : ℚ) :
    (setPools a f r c).owner_id = a.owner_id := rfl

theorem setPools_id (a : CreditAccount) (f r c : ℚ) :
    (setPools a f r c).id = a.id := rfl

theorem expenseInSession_ok {s : Store} {ot : OwnerType} {oid : String}
    {amount : ℚ} {s' : Store} {a : CreditAccount} {ctr : CreditType}
    (h : expenseInSession s ot oid amount = Except.ok (s', a, ctr)) :
    ¬((refilled s ot oid).free_credits + (refilled s ot oid).reward_credits
        + (refilled s ot oid).credits < amount) ∧
    a = setPools (refilled s ot oid)
      (expenseSplit (refilled s ot oid).free_credits
        (refilled s ot oid).reward_credits (refilled s ot oid).credits
        amount).1
      (expenseSplit (refilled s ot oid).free_credits
        (refilled s ot oid).reward_credits (refilled s ot oid).credits
        amount).2.1
      (expenseSplit (refilled s ot oid).free_credits
        (refilled s ot oid).reward_credits (refilled s ot oid).credits
        amount).2.2.1 ∧
    ctr = (expenseSplit (refilled s ot oid).free_credits
      (refilled s ot oid).reward_credits (refilled s ot oid).credits
      amount).2.2.2 ∧
    a.owner_type = ot ∧ a.owner_id = oid ∧
    s'.getAccount ot oid = some a ∧
    (∀ ot' oid', ¬(ot' = ot ∧ oid' = oid) →
      s'.getAccount ot' oid' = s.getAccount ot' oid') ∧
    s'.events = s.events ∧ s'.txs = s.txs ∧ s'.now = s.now ∧
    s'.nextId = (getOrCreateInSession s ot oid).1.nextId := by
  unfold expenseInSession at h
  obtain ⟨hg1, hg2, hg3, hg4, hg5, hg6, hg7⟩ :=
    getOrCreateInSession_spec s ot oid
  unfold refilled
  cases hgo : getOrCreateInSession s ot oid with
  | mk s₁ a₀ =>
    rw [hgo] at h hg1 hg2 hg3 hg4 hg5 hg6 hg7
    dsimp only at h hg1 hg2 hg3 hg4 hg5 hg6 hg7 ⊢
    split at h
    · exact absurd h (by simp)
    · rename_i hcond
      injection h with h
      injection h with hs h
      injection h with ha hct
      subst hs
      subst ha
      subst hct
      dsimp only
      rw [hg6] at hcond ⊢
      have hko : ∀ q₁ q₂ q₃ : ℚ,
          (setPools (a₀.applyRefill s.now) q₁ q₂ q₃).owner_type = ot := by
        intro q₁ q₂ q₃
        rw [setPools_owner_type, applyRefill_owner_type, hg1]
      have hki : ∀ q₁ q₂ q₃ : ℚ,
          (setPools (a₀.applyRefill s.now) q₁ q₂ q₃).owner_id = oid := by
        intro q₁ q₂ q₃
        rw [setPools_owner_id, applyRefill_owner_id, hg2]
      refine ⟨hcond, rfl, rfl, hko _ _ _, hki _ _ _, ?_, ?_, ?_, ?_, ?_,
        rfl⟩
      · have hset := getAccount_setAccount_self s₁
          (setPools (a₀.applyRefill s.now)
            (expenseSplit (a₀.applyRefill s.now).free_credits
              (a₀.applyRefill s.now).reward_credits
              (a₀.applyRefill s.now).credits amount).1
            (expenseSplit (a₀.applyRefill s.now).free_credits
              (a₀.applyRefill s.now).reward_credits
              (a₀.applyRefill s.now).credits amount).2.1
            (expenseSplit (a₀.applyRefill s.now).free_credits
              (a₀.applyRefill s.now).reward_credits
              (a₀.applyRefill s.now).credits amount).2.2.1)
        rw [hko, hki, hg3] at hset
        exact hset
      · intro ot' oid' hne
        exact (getAccount_setAccount_ne s₁
          (setPools (a₀.applyRefill s.now)
            (expenseSplit (a₀.applyRefill s.now).free_credits
              (a₀.applyRefill s.now).reward_credits
              (a₀.applyRefill s.now).credits amount).1
            (expenseSplit (a₀.applyRefill s.now).free_credits
              (a₀.applyRefill s.now).reward_credits
              (a₀.applyRefill s.now).credits amount).2.1
            (expenseSplit (a₀.applyRefill s.now).free_credits
              (a₀.applyRefill s.now).reward_credits
              (a₀.applyRefill s.now).credits amount).2.2.1) ot' oid'
          (fun hc => hne ⟨hc.1.trans (hko 0 0 0),
            hc.2.trans (hki 0 0 0)⟩)).trans (hg7 ot' oid' hne)
      · rw [setAccount_events]; exact hg4
      · rw [setAccount_txs]; exact hg5
      · rw [setAccount_now]; exact hg6

theorem recharge_ok_spec {s : Store} {uid : String} {amount : ℚ}
    {tx : String} {note : Option String} {s' : Store} {a : CreditAccount}
    (h : recharge s uid amount tx note = Except.ok (s', a)) :
    checkUpstreamTxIdExists s UpstreamType.API tx = Except.ok () ∧
    0 < amount ∧
    ∃ sU sP p,
      incomeInSession s OwnerType.USER uid amount CreditType.PERMANENT
        = Except.ok (sU, a) ∧
      deductionInSession sU OwnerType.PLATFORM PLATFORM_RECHARGE
        CreditType.PERMANENT amount = Except.ok (sP, p) ∧
      s'.accounts = sP.accounts ∧ s'.now = sP.now ∧
      s'.nextId = sP.nextId + 3 ∧
      s'.events = sP.events ++
        [⟨sP.nextId, EventType.RECHARGE, UpstreamType.API, tx,
          Direction.INCOME, a.id, amount, CreditType.PERMANENT,
          a.credits + a.free_credits + a.reward_credits, amount, amount,
          none, none, none, none, none, none, none, note⟩] ∧
      s'.txs = sP.txs ++
        [⟨sP.nextId + 1, a.id, sP.nextId, TransactionType.RECHARGE,
          CreditDebit.CREDIT, amount, CreditType.PERMANENT⟩,
         ⟨sP.nextId + 2, p.id, sP.nextId, TransactionType.RECHARGE,
          CreditDebit.DEBIT, amount, CreditType.PERMANENT⟩] := by
  unfold recharge at h
  simp only [bind, Except.bind, pure, Except.pure] at h
  cases hc : checkUpstreamTxIdExists s UpstreamType.API tx with
  | error e => rw [hc] at h; exact absurd h (by simp)
  | ok u =>
    cases u
    rw [hc] at h
    dsimp only at h
    by_cases hle : amount ≤ 0
    · rw [if_pos hle] at h; exact absurd h (by simp)
    · rw [if_neg hle] at h
      cases hi : incomeInSession s OwnerType.USER uid amount
          CreditType.PERMANENT with
      | error e => rw [hi] at h; exact absurd h (by simp)
      | ok r =>
        obtain ⟨sU, aU⟩ := r
        rw [hi] at h
        dsimp only at h
        cases hd : deductionInSession sU OwnerType.PLATFORM
            PLATFORM_RECHARGE CreditType.PERMANENT amount with
        | error e => rw [hd] at h; exact absurd h (by simp)
        | ok r =>
          obtain ⟨sP, p⟩ := r
          rw [hd] at h
          dsimp only [Store.freshId] at h
          injection h with h
          injection h with hs ha
          subst hs
          subst ha
          exact ⟨rfl, lt_of_not_le hle, sU, sP, p, rfl, hd, rfl, rfl, rfl,
            rfl, rfl⟩

theorem rewardOp_ok_spec {s : Store} {uid : String} {amount : ℚ}
    {tx : String} {note : Option String} {s' : Store} {a : CreditAccount}
    (h : rewardOp s uid amount tx note = Except.ok (s', a)) :
    checkUpstreamTxIdExists s UpstreamType.API tx = Except.ok () ∧
    0 < amount ∧
    ∃ sU sP p,
      incomeInSession s OwnerType.USER uid amount CreditType.REWARD
        = Except.ok (sU, a) ∧
      deductionInSession sU OwnerType.PLATFORM PLATFORM_REWARD
        CreditType.REWARD amount = Except.ok (sP, p) ∧
      s'.accounts = sP.accounts ∧ s'.now = sP.now ∧
      s'.nextId = sP.nextId + 3 ∧
      s'.events = sP.events ++
        [⟨sP.nextId, EventType.REWARD, UpstreamType.API, tx,
          Direction.INCOME, a.id, amount, CreditType.REWARD,
          a.credits + a.free_credits + a.reward_credits, amount, amount,
          none, none, none, none, none, none, none, note⟩] ∧
      s'.txs = sP.txs ++
        [⟨sP.nextId + 1, a.id, sP.nextId, TransactionType.REWARD,
          CreditDebit.CREDIT, amount, CreditType.REWARD⟩,
         ⟨sP.nextId + 2, p.id, sP.nextId, TransactionType.REWARD,
          CreditDebit.DEBIT, amount, CreditType.REWARD⟩] := by
  unfold rewardOp at h
  simp only [bind, Except.bind, pure, Except.pure] at h
  cases hc : checkUpstreamTxIdExists s UpstreamType.API tx with
  | error e => rw [hc] at h; exact absurd h (by simp)
  | ok u =>
    cases u
    rw [hc] at h
    dsimp only at h
    by_cases hle : amount ≤ 0
    · rw [if_pos hle] at h; exact absurd h (by simp)
    · rw [if_neg hle] at h
      cases hi : incomeInSession s OwnerType.USER uid amount
          CreditType.REWARD with
      | error e => rw [hi] at h; exact absurd h (by simp)
      | ok r =>
        obtain ⟨sU, aU⟩ := r
        rw [hi] at h
        dsimp only at h
        cases hd : deductionInSession sU OwnerType.PLATFORM
            PLATFORM_REWARD CreditType.REWARD amount with
        | error e => rw [hd] at h; exact absurd h (by simp)
        | ok r =>
          obtain ⟨sP, p⟩ := r
          rw [hd] at h
          dsimp only [Store.freshId] at h
          injection h with h
          injection h with hs ha
          subst hs
          subst ha
          exact ⟨rfl, lt_of_not_le hle, sU, sP, p, rfl, hd, rfl, rfl, rfl,
            rfl, rfl⟩

theorem adjustment_ok_spec {s : Store} {uid : String} {ct : CreditType}
    {amount : ℚ} {tx : String} {note : String} {s' : Store}
    {a : CreditAccount}
    (h : adjustment s uid ct amount tx note = Except.ok (s', a)) :
    checkUpstreamTxIdExists s UpstreamType.API tx = Except.ok () ∧
    amount ≠ 0 ∧ note ≠ "" ∧
    ∃ sU sP p,
      (if 0 < amount then
        incomeInSession s OwnerType.USER uid |amount| ct
          = Except.ok (sU, a)
       else
        deductionInSession s OwnerType.USER uid ct |amount|
          = Except.ok (sU, a)) ∧
      (if 0 < amount then
        deductionInSession sU OwnerType.PLATFORM PLATFORM_ADJUSTMENT ct
          |amount| = Except.ok (sP, p)
       else
        incomeInSession sU OwnerType.PLATFORM PLATFORM_ADJUSTMENT
          |amount| ct = Except.ok (sP, p)) ∧
      s'.accounts = sP.accounts ∧ s'.now = sP.now ∧
      s'.nextId = sP.nextId + 3 ∧
      s'.events = sP.events ++
        [⟨sP.nextId, EventType.ADJUSTMENT, UpstreamType.API, tx,
          (if 0 < amount then Direction.INCOME else Direction.EXPENSE),
          a.id, |amount|, ct,
          a.credits + a.free_credits + a.reward_credits, |amount|,
          |amount|, none, none, none, none, none, none, none,
          some note⟩] ∧
      s'.txs = sP.txs ++
        [⟨sP.nextId + 1, a.id, sP.nextId, TransactionType.ADJUSTMENT,
          (if 0 < amount then CreditDebit.CREDIT else CreditDebit.DEBIT),
          |amount|, ct⟩,
         ⟨sP.nextId + 2, p.id, sP.nextId, TransactionType.ADJUSTMENT,
          (if 0 < amount then CreditDebit.DEBIT else CreditDebit.CREDIT),
          |amount|, ct⟩] := by
  unfold adjustment at h
  simp only [bind, Except.bind, pure, Except.pure] at h
  cases hc : checkUpstreamTxIdExists s UpstreamType.API tx with
  | error e => rw [hc] at h; exact absurd h (by simp)
  | ok u =>
    cases u
    rw [hc] at h
    dsimp only at h
    by_cases h0 : amount = 0
    · rw [if_pos h0] at h; exact absurd h (by simp)
    · rw [if_neg h0] at h
      by_cases hn : note = ""
      · rw [if_pos hn] at h; exact absurd h (by simp)
      · rw [if_neg hn] at h
        by_cases hpos : 0 < amount
        · simp only [if_pos hpos] at h ⊢
          cases hi : incomeInSession s OwnerType.USER uid |amount| ct with
          | error e => rw [hi] at h; exact absurd h (by simp)
          | ok r =>
            obtain ⟨sU, aU⟩ := r
            rw [hi] at h
            dsimp only at h
            cases hd : deductionInSession sU OwnerType.PLATFORM
                PLATFORM_ADJUSTMENT ct |amount| with
            | error e => rw [hd] at h; exact absurd h (by simp)
            | ok r =>
              obtain ⟨sP, p⟩ := r
              rw [hd] at h
              dsimp only [Store.freshId] at h
              injection h with h
              injection h with hs ha
              subst hs
              subst ha
              exact ⟨by trivial, h0, hn, sU, sP, p, by trivial,
                by trivial, rfl, rfl, rfl, rfl, rfl⟩
        · simp only [if_neg hpos] at h ⊢
          cases hi : deductionInSession s OwnerType.USER uid ct
              |amount| with
          | error e => rw [hi] at h; exact absurd h (by simp)
          | ok r =>
            obtain ⟨sU, aU⟩ := r
            rw [hi] at h
            dsimp only at h
            cases hd : incomeInSession sU OwnerType.PLATFORM
                PLATFORM_ADJUSTMENT |amount| ct with
            | error e => rw [hd] at h; exact absurd h (by simp)
            | ok r =>
              obtain ⟨sP, p⟩ := r
              rw [hd] at h
              dsimp only [Store.freshId] at h
              injection h with h
              injection h with hs ha
              subst hs
              subst ha
              exact ⟨by trivial, h0, hn, sU, sP, p, by trivial,
                by trivial, rfl, rfl, rfl, rfl, rfl⟩

/-- The agent fee computed by `expense_message` (lines 637–641): zero when
the user owns the agent. -/
def feeAgentAmt (uid owner : String) (base afp : ℚ) : ℚ :=
  if uid ≠ owner then base * afp else 0

/-- The total charged by `expense_message` (line 642):
`base_amount + fee_platform_amount + fee_agent_amount`. -/
def totalAmt (pct : ℚ) (uid owner : String) (base afp : ℚ) : ℚ :=
  base + base * pct + feeAgentAmt uid owner base afp

theorem expenseMessage_ok_spec_agent {pct : ℚ} {s : Store}
    {agent uid mid smid : String} {base afp : ℚ} {owner : String}
    {s' : Store} {a : CreditAccount}
    (hfa : 0 < feeAgentAmt uid owner base afp)
    (h : expenseMessage pct s agent uid mid smid base afp owner
      = Except.ok (s', a)) :
    checkUpstreamTxIdExists s UpstreamType.EXECUTOR mid = Except.ok () ∧
    ¬base < 0 ∧
    ∃ sU ctr sP p sA aa,
      expenseInSession s OwnerType.USER uid
        (totalAmt pct uid owner base afp) = Except.ok (sU, a, ctr) ∧
      incomeInSession sU OwnerType.PLATFORM PLATFORM_FEE (base * pct) ctr
        = Except.ok (sP, p) ∧
      incomeInSession sP OwnerType.AGENT agent
        (feeAgentAmt uid owner base afp) ctr = Except.ok (sA, aa) ∧
      s'.accounts = sA.accounts ∧ s'.now = sA.now ∧
      s'.nextId = sA.nextId + 4 ∧
      s'.events = sA.events ++
        [⟨sA.nextId, EventType.MESSAGE, UpstreamType.EXECUTOR, mid,
          Direction.EXPENSE, a.id, totalAmt pct uid owner base afp, ctr,
          a.credits + a.free_credits + a.reward_credits, base, base,
          some base, some (base * pct),
          some (feeAgentAmt uid owner base afp), some aa.id, some agent,
          some mid, some smid, none⟩] ∧
      s'.txs = sA.txs ++
        [⟨sA.nextId + 1, a.id, sA.nextId, TransactionType.PAY,
          CreditDebit.DEBIT, totalAmt pct uid owner base afp, ctr⟩,
         ⟨sA.nextId + 2, p.id, sA.nextId,
          TransactionType.RECEIVE_FEE_PLATFORM, CreditDebit.CREDIT,
          base * pct, ctr⟩,
         ⟨sA.nextId + 3, aa.id, sA.nextId,
          TransactionType.RECEIVE_FEE_AGENT, CreditDebit.CREDIT,
          feeAgentAmt uid owner base afp, ctr⟩] := by
  unfold expenseMessage at h
  simp only [bind, Except.bind, pure, Except.pure] at h
  rw [show (if uid ≠ owner then base * afp else 0)
    = feeAgentAmt uid owner base afp from rfl] at h
  cases hc : checkUpstreamTxIdExists s UpstreamType.EXECUTOR mid with
  | error e => rw [hc] at h; exact absurd h (by simp)
  | ok u =>
    cases u
    rw [hc] at h
    dsimp only at h
    by_cases hlt : base < 0
    · rw [if_pos hlt] at h; exact absurd h (by simp)
    · rw [if_neg hlt] at h
      cases he : expenseInSession s OwnerType.USER uid
          (base + base * pct + feeAgentAmt uid owner base afp) with
      | error e => rw [he] at h; exact absurd h (by simp)
      | ok r =>
        obtain ⟨sU, aU, ctr⟩ := r
        rw [he] at h
        dsimp only at h
        cases hp : incomeInSession sU OwnerType.PLATFORM PLATFORM_FEE
            (base * pct) ctr with
        | error e => rw [hp] at h; exact absurd h (by simp)
        | ok r =>
          obtain ⟨sP, p⟩ := r
          rw [hp] at h
          dsimp only at h
          rw [if_pos hfa] at h
          cases ha : incomeInSession sP OwnerType.AGENT agent
              (feeAgentAmt uid owner base afp) ctr with
          | error e => rw [ha] at h; exact absurd h (by simp)
          | ok r =>
            obtain ⟨sA, aa⟩ := r
            rw [ha] at h
            dsimp only [Store.freshId] at h
            rw [if_pos hfa] at h
            dsimp only [Option.map] at h
            injection h with h
            injection h with hs hacc
            subst hs
            subst hacc
            exact ⟨by trivial, hlt, sU, ctr, sP, p, sA, aa, by trivial,
              by trivial, by trivial, rfl, rfl, rfl, rfl, rfl⟩

theorem expenseMessage_ok_spec_noagent {pct : ℚ} {s : Store}
    {agent uid mid smid : String} {base afp : ℚ} {owner : String}
    {s' : Store} {a : CreditAccount}
    (hfa : ¬0 < feeAgentAmt uid owner base afp)
    (h : expenseMessage pct s agent uid mid smid base afp owner
      = Except.ok (s', a)) :
    checkUpstreamTxIdExists s UpstreamType.EXECUTOR mid = Except.ok () ∧
    ¬base < 0 ∧
    ∃ sU ctr sP p,
      expenseInSession s OwnerType.USER uid
        (totalAmt pct uid owner base afp) = Except.ok (sU, a, ctr) ∧
      incomeInSession sU OwnerType.PLATFORM PLATFORM_FEE (base * pct) ctr
        = Except.ok (sP, p) ∧
      s'.accounts = sP.accounts ∧ s'.now = sP.now ∧
      s'.nextId = sP.nextId + 3 ∧
      s'.events = sP.events ++
        [⟨sP.nextId, EventType.MESSAGE, UpstreamType.EXECUTOR, mid,
          Direction.EXPENSE, a.id, totalAmt pct uid owner base afp, ctr,
          a.credits + a.free_credits + a.reward_credits, base, base,
          some base, some (base * pct),
          some (feeAgentAmt uid owner base afp), none, some agent,
          some mid, some smid, none⟩] ∧
      s'.txs = sP.txs ++
        [⟨sP.nextId + 1, a.id, sP.nextId, TransactionType.PAY,
          CreditDebit.DEBIT, totalAmt pct uid owner base afp, ctr⟩,
         ⟨sP.nextId + 2, p.id, sP.nextId,
          TransactionType.RECEIVE_FEE_PLATFORM, CreditDebit.CREDIT,
          base * pct, ctr⟩] := by
  unfold expenseMessage at h
  simp only [bind, Except.bind, pure, Except.pure] at h
  rw [show (if uid ≠ owner then base * afp else 0)
    = feeAgentAmt uid owner base afp from rfl] at h
  cases hc : checkUpstreamTxIdExists s UpstreamType.EXECUTOR mid with
  | error e => rw [hc] at h; exact absurd h (by simp)
  | ok u =>
    cases u
    rw [hc] at h
    dsimp only at h
    by_cases hlt : base < 0
    · rw [if_pos hlt] at h; exact absurd h (by simp)
    · rw [if_neg hlt] at h
      cases he : expenseInSession s OwnerType.USER uid
          (base + base * pct + feeAgentAmt uid owner base afp) with
      | error e => rw [he] at h; exact absurd h (by simp)
      | ok r =>
        obtain ⟨sU, aU, ctr⟩ := r
        rw [he] at h
        dsimp only at h
        cases hp : incomeInSession sU OwnerType.PLATFORM PLATFORM_FEE
            (base * pct) ctr with
        | error e => rw [hp] at h; exact absurd h (by simp)
        | ok r =>
          obtain ⟨sP, p⟩ := r
          rw [hp] at h
          dsimp only at h
          rw [if_neg hfa] at h
          dsimp only [Store.freshId] at h
          rw [if_neg hfa] at h
          injection h with h
          injection h with hs hacc
          subst hs
          subst hacc
          exact ⟨by trivial, hlt, sU, ctr, sP, p, by trivial, by trivial,
            rfl, rfl, rfl, rfl, rfl⟩

theorem expenseInSession_insufficient {s : Store} {ot : OwnerType}
    {oid : String} {amount : ℚ}
    (hlt : ((getOrCreateInSession s ot oid).2.applyRefill s.now).free_credits
        + ((getOrCreateInSession s ot oid).2.applyRefill
          s.now).reward_credits
        + ((getOrCreateInSession s ot oid).2.applyRefill s.now).credits
        < amount) :
    expenseInSession s ot oid amount
      = Except.error Err.InsufficientFunds := by
  unfold expenseInSession
  obtain ⟨_, _, _, _, _, hg6, _⟩ := getOrCreateInSession_spec s ot oid
  cases hgo : getOrCreateInSession s ot oid with
  | mk s₁ a₀ =>
    rw [hgo] at hlt hg6
    dsimp only at hlt hg6 ⊢
    rw [hg6]
    rw [if_pos hlt]

theorem checkUpstreamTxIdExists_dup {s : Store} {ut : UpstreamType}
    {x : String}
    (h : ∃ e ∈ s.events, e.upstream_type = ut ∧ e.upstream_tx_id = x) :
    checkUpstreamTxIdExists s ut x
      = Except.error Err.DuplicateUpstreamTx := by
  unfold checkUpstreamTxIdExists
  rw [if_pos]
  rw [List.any_eq_true]
  obtain ⟨e, he, h1, h2⟩ := h
  exact ⟨e, he, by simp [h1, h2]⟩

/-- Overwrite the two quota settings (the write-back shape of
`update_daily_quota`). -/
def setQuota (a : CreditAccount) (q r : ℚ) : CreditAccount :=
  { a with free_quota := q, refill_amount := r }

/-- Branch-free normal form of `updateDailyQuota`, proved equal to it in
`updateDailyQuota_eq_run`. -/
def updateDailyQuotaRun (s : Store) (uid : String)
    (fq? ra? : Option ℚ) (nt : String) :
    Except Err (Store × CreditAccount) :=
  if fq? = none ∧ ra? = none then Except.error Err.InvalidAmount
  else
    let s₁ := (getOrCreateInSession s OwnerType.USER uid).1
    let base := (getOrCreateInSession s OwnerType.USER uid).2
    if fq?.any (fun q => decide (q ≤ 0)) then
      Except.error Err.InvalidAmount
    else if ra?.any (fun r => decide (r < 0)) then
      Except.error Err.InvalidAmount
    else if fq?.getD base.free_quota < ra?.getD base.refill_amount then
      Except.error Err.InvalidAmount
    else if nt = "" then Except.error Err.MissingNote
    else
      let a := setQuota base (fq?.getD base.free_quota)
        (ra?.getD base.refill_amount)
      Except.ok (s₁.setAccount a, a)

theorem updateDailyQuota_eq_run (s : Store) (uid : String)
    (fq? ra? : Option ℚ) (nt : String) :
    updateDailyQuota s uid fq? ra? nt
      = updateDailyQuotaRun s uid fq? ra? nt := by
  unfold updateDailyQuota updateDailyQuotaRun
  simp only [bind, Except.bind, pure, Except.pure]
  cases hgo : getOrCreateInSession s OwnerType.USER uid with
  | mk s₁ base =>
    dsimp only
    cases fq? with
    | none =>
      cases ra? with
      | none => simp
      | some r =>
        simp only [Option.getD, setQuota]
        split_ifs <;> simp_all <;> linarith
    | some q =>
      cases ra? with
      | none =>
        simp only [Option.getD, setQuota]
        split_ifs <;> simp_all <;> linarith
      | some r =>
        simp only [Option.getD, setQuota]
        split_ifs <;> simp_all <;> linarith

theorem getOrCreateInSession_none {s : Store} {ot : OwnerType}
    {oid : String} (h : s.getAccount ot oid = none) :
    (getOrCreateInSession s ot oid).2
      = ⟨s.nextId, ot, oid, 0, 0, 0, 0, 0, s.now⟩ := by
  unfold getOrCreateInSession
  rw [h]
  rfl

theorem setQuota_free_quota (a : CreditAccount) (q r : ℚ) :
    (setQuota a q r).free_quota = q := rfl

theorem setQuota_refill_amount (a : CreditAccount) (q r : ℚ) :
    (setQuota a q r).refill_amount = r := rfl

theorem setQuota_credits (a : CreditAccount) (q r : ℚ) :
    (setQuota a q r).credits = a.credits := rfl

theorem setQuota_free_credits (a : CreditAccount) (q r : ℚ) :
    (setQuota a q r).free_credits = a.free_credits := rfl

theorem setQuota_reward_credits (a : CreditAccount) (q r : ℚ) :
    (setQuota a q r).reward_credits = a.reward_credits := rfl

theorem setQuota_owner_type (a : CreditAccount) (q r : ℚ) :
    (setQuota a q r).owner_type = a.owner_type := rfl

theorem setQuota_owner_id (a : CreditAccount) (q r : ℚ) :
    (setQuota a q r).owner_id = a.owner_id := rfl

/-- `updateDailyQuota` can only fail with `InvalidAmount` or
`MissingNote`; in particular it never fails with `AccountNotFound` (it
uses get-or-create). -/
theorem updateDailyQuota_no_account_not_found (s : Store) (uid : String)
    (fq? ra? : Option ℚ) (nt : String) :
    updateDailyQuota s uid fq? ra? nt
      ≠ Except.error Err.AccountNotFound := by
  intro h
  rw [updateDailyQuota_eq_run] at h
  unfold updateDailyQuotaRun at h
  split at h
  · exact absurd h (by simp)
  · dsimp only at h
    split at h
    · exact absurd h (by simp)
    · split at h
      · exact absurd h (by simp)
      · split at h
        · exact absurd h (by simp)
        · split at h
          · exact absurd h (by simp)
          · exact absurd h (by simp)

theorem checkUpstreamTxIdExists_ok {s : Store} {ut : UpstreamType}
    {x : String}
    (h : ¬∃ e ∈ s.events, e.upstream_type = ut ∧ e.upstream_tx_id = x) :
    checkUpstreamTxIdExists s ut x = Except.ok () := by
  unfold checkUpstreamTxIdExists
  rw [if_neg]
  intro hany
  rw [List.any_eq_true] at hany
  obtain ⟨e, he, hp⟩ := hany
  simp only [Bool.and_eq_true, beq_iff_eq] at hp
  exact h ⟨e, he, hp.1, hp.2⟩

theorem getAccount_congr {s₁ s₂ : Store} (h : s₁.accounts = s₂.accounts)
    (ot : OwnerType) (oid : String) :
    s₁.getAccount ot oid = s₂.getAccount ot oid := by
  unfold Store.getAccount
  rw [h]

theorem refilled_pool_congr {s₁ s₂ : Store} {ot : OwnerType}
    {oid : String} (hacc : s₁.getAccount ot oid = s₂.getAccount ot oid)
    (hnow : s₁.now = s₂.now) (ct : CreditType) :
    (refilled s₁ ot oid).pool ct = (refilled s₂ ot oid).pool ct := by
  unfold refilled getOrCreateInSession
  rw [hacc, hnow]
  cases hg : s₂.getAccount ot oid with
  | some a => rfl
  | none =>
    dsimp only [Store.freshId]
    cases ct <;>
      simp [CreditAccount.applyRefill, CreditAccount.pool]

theorem refilled_free_reward_credits_congr {s₁ s₂ : Store}
    {ot : OwnerType} {oid : String}
    (hacc : s₁.getAccount ot oid = s₂.getAccount ot oid)
    (hnow : s₁.now = s₂.now) :
    (refilled s₁ ot oid).free_credits + (refilled s₁ ot oid).reward_credits
        + (refilled s₁ ot oid).credits
      = (refilled s₂ ot oid).free_credits
        + (refilled s₂ ot oid).reward_credits
        + (refilled s₂ ot oid).credits := by
  unfold refilled getOrCreateInSession
  rw [hacc, hnow]
  cases hg : s₂.getAccount ot oid with
  | some a => rfl
  | none =>
    dsimp only [Store.freshId]
    simp [CreditAccount.applyRefill]

/-! ### The claims -/

/-- C3: for every orchestrator (`recharge`, `reward`, `adjustment`,
`expense_message`), if a `CreditEvent` with the same
`(upstream_type, upstream_tx_id)` already exists, the call fails with
`DuplicateUpstreamTx` (for `expense_message` the key is
`(EXECUTOR, message_id)`).  The orchestrators return `Except.error`, i.e.
the transaction is rolled back: no account is mutated and no event or
transaction leg is persisted. -/
theorem claim3_duplicate_upstream_tx_rejected (s : Store)
    (uid agent mid smid tx : String) (note : Option String)
    (noteS : String) (ct : CreditType) (amount base afp pct : ℚ)
    (owner : String)
    (hAPI : ∃ e ∈ s.events, e.upstream_type = UpstreamType.API ∧
      e.upstream_tx_id = tx)
    (hEXE : ∃ e ∈ s.events, e.upstream_type = UpstreamType.EXECUTOR ∧
      e.upstream_tx_id = mid) :
    recharge s uid amount tx note
      = Except.error Err.DuplicateUpstreamTx ∧
    rewardOp s uid amount tx note
      = Except.error Err.DuplicateUpstreamTx ∧
    adjustment s uid ct amount tx noteS
      = Except.error Err.DuplicateUpstreamTx ∧
    expenseMessage pct s agent uid mid smid base afp owner
      = Except.error Err.DuplicateUpstreamTx := by
  have hc1 := checkUpstreamTxIdExists_dup hAPI
  have hc2 := checkUpstreamTxIdExists_dup hEXE
  refine ⟨?_, ?_, ?_, ?_⟩
  · unfold recharge
    simp [hc1, bind, Except.bind]
  · unfold rewardOp
    simp [hc1, bind, Except.bind]
  · unfold adjustment
    simp [hc1, bind, Except.bind]
  · unfold expenseMessage
    simp [hc2, bind, Except.bind]

/-- Sample events used to instantiate hypotheses of the proved theorems
at concrete inputs. -/
def sampleEventAPI : CreditEvent :=
  ⟨90, EventType.RECHARGE, UpstreamType.API, "t1", Direction.INCOME, 0,
    1, CreditType.PERMANENT, 1, 1, 1, none, none, none, none, none,
    none, none, none⟩

def sampleEventEXE : CreditEvent :=
  ⟨91, EventType.MESSAGE, UpstreamType.EXECUTOR, "m1",
    Direction.EXPENSE, 0, 1, CreditType.PERMANENT, 1, 1, 1, none, none,
    none, none, none, none, none, none⟩

def sampleDupStore : Store :=
  { accounts := [], events := [sampleEventAPI, sampleEventEXE],
    txs := [], nextId := 92, now := 0 }

/-- Witness for C3 at a concrete store holding an API event keyed `t1`
and an EXECUTOR event keyed `m1`. -/
theorem claim3_witness :
    recharge sampleDupStore "u1" 5 "t1" none
      = Except.error Err.DuplicateUpstreamTx ∧
    rewardOp sampleDupStore "u1" 5 "t1" none
      = Except.error Err.DuplicateUpstreamTx ∧
    adjustment sampleDupStore "u1" CreditType.FREE 5 "t1" "n"
      = Except.error Err.DuplicateUpstreamTx ∧
    expenseMessage (1/10) sampleDupStore "a1" "u1" "m1" "m0" 5 (1/2) "u2"
      = Except.error Err.DuplicateUpstreamTx :=
  claim3_duplicate_upstream_tx_rejected sampleDupStore "u1" "a1" "m1"
    "m0" "t1" none "n" CreditType.FREE 5 5 (1/2) (1/10) "u2"
    ⟨sampleEventAPI, by simp [sampleDupStore], by simp [sampleEventAPI]⟩
    ⟨sampleEventEXE, by simp [sampleDupStore], by simp [sampleEventEXE]⟩

/-- C10: `fetch_credit_event_by_upstream_tx_id` matches events by
`upstream_tx_id` alone, ignoring `upstream_type`: when both an API event
and an EXECUTOR event carry the same `upstream_tx_id`, it returns the
first one the query yields rather than failing or distinguishing them,
and it raises `NotFound` exactly when no event at all has that
`upstream_tx_id`. -/
theorem claim10_fetch_ignores_upstream_type (s : Store) (txid : String)
    (e1 e2 : CreditEvent) (h1 : e1 ∈ s.events) (h2 : e2 ∈ s.events)
    (ht1 : e1.upstream_type = UpstreamType.API)
    (ht2 : e2.upstream_type = UpstreamType.EXECUTOR)
    (hx1 : e1.upstream_tx_id = txid) (hx2 : e2.upstream_tx_id = txid) :
    (∃ e, fetchCreditEventByUpstreamTxId s txid = Except.ok e ∧
      e.upstream_tx_id = txid ∧
      s.events.find? (fun e => e.upstream_tx_id == txid) = some e) ∧
    (∀ txid', (fetchCreditEventByUpstreamTxId s txid'
        = Except.error Err.NotFound ↔
      ∀ e ∈ s.events, e.upstream_tx_id ≠ txid')) := by
  constructor
  · cases hf : s.events.find? (fun e => e.upstream_tx_id == txid) with
    | none =>
      rw [List.find?_eq_none] at hf
      exact absurd (by simp [hx1]) (hf e1 h1)
    | some e =>
      have hpe := List.find?_some hf
      rw [beq_iff_eq] at hpe
      refine ⟨e, ?_, hpe, rfl⟩
      unfold fetchCreditEventByUpstreamTxId
      rw [hf]
  · intro txid'
    unfold fetchCreditEventByUpstreamTxId
    cases hf : s.events.find? (fun e => e.upstream_tx_id == txid') with
    | none =>
      rw [List.find?_eq_none] at hf
      simp only [true_iff]
      intro e he
      have := hf e he
      simpa using this
    | some e =>
      have hpe := List.find?_some hf
      rw [beq_iff_eq] at hpe
      simp only [reduceCtorEq, false_iff, not_forall]
      exact ⟨e, List.mem_of_find?_eq_some hf, by simp [hpe]⟩

/-- Witness store for C10: an API event and an EXECUTOR event sharing
`upstream_tx_id` `"x1"`. -/
def sampleSharedTxStore : Store :=
  { accounts := [],
    events := [
      ⟨80, EventType.RECHARGE, UpstreamType.API, "x1", Direction.INCOME,
        0, 1, CreditType.PERMANENT, 1, 1, 1, none, none, none, none,
        none, none, none, none⟩,
      ⟨81, EventType.MESSAGE, UpstreamType.EXECUTOR, "x1",
        Direction.EXPENSE, 0, 1, CreditType.PERMANENT, 1, 1, 1, none,
        none, none, none, none, none, none, none⟩],
    txs := [], nextId := 82, now := 0 }

/-- Witness for C10 at the concrete two-event store. -/
theorem claim10_witness :
    (∃ e, fetchCreditEventByUpstreamTxId sampleSharedTxStore "x1"
        = Except.ok e ∧
      e.upstream_tx_id = "x1" ∧
      sampleSharedTxStore.events.find?
        (fun e => e.upstream_tx_id == "x1") = some e) ∧
    (∀ txid', (fetchCreditEventByUpstreamTxId sampleSharedTxStore txid'
        = Except.error Err.NotFound ↔
      ∀ e ∈ sampleSharedTxStore.events, e.upstream_tx_id ≠ txid')) :=
  claim10_fetch_ignores_upstream_type sampleSharedTxStore "x1"
    (sampleSharedTxStore.events.get ⟨0, by simp [sampleSharedTxStore]⟩)
    (sampleSharedTxStore.events.get ⟨1, by simp [sampleSharedTxStore]⟩)
    (by simp [sampleSharedTxStore]) (by simp [sampleSharedTxStore])
    rfl rfl rfl rfl

/-- C6 (counterexample): `update_daily_quota` against a user with no
existing credit account does NOT fail with `AccountNotFound` — the code
calls `get_or_create_in_session` (line 392), so the call succeeds and an
account is created. -/
theorem claim6_counterexample :
    Store.empty.getAccount OwnerType.USER "u1" = none ∧
    updateDailyQuota Store.empty "u1" (some 100) (some 20) "init"
      ≠ Except.error Err.AccountNotFound ∧
    ∃ s' a,
      updateDailyQuota Store.empty "u1" (some 100) (some 20) "init"
        = Except.ok (s', a) ∧
      s'.getAccount OwnerType.USER "u1" = some a := by
  refine ⟨rfl, updateDailyQuota_no_account_not_found Store.empty "u1"
    (some 100) (some 20) "init", ?_⟩
  refine ⟨⟨[⟨0, OwnerType.USER, "u1", 0, 0, 0, 100, 20, 0⟩], [], [], 1, 0⟩,
    ⟨0, OwnerType.USER, "u1", 0, 0, 0, 100, 20, 0⟩, ?_, ?_⟩
  · rw [updateDailyQuota_eq_run]
    rfl
  · rfl

/-- C6 (amended): `update_daily_quota(user_id, free_quota?,
refill_amount?, note)` against a user with no existing credit account
does not fail with `AccountNotFound`; instead it creates a zeroed
account via get-or-create and, when the parameters are valid, succeeds,
leaving the created account with the requested quota settings. -/
theorem claim6_amended (s : Store) (uid : String) (fq ra : ℚ)
    (nt : String) (hacc : s.getAccount OwnerType.USER uid = none)
    (hfq : 0 < fq) (hra : 0 ≤ ra) (hle : ra ≤ fq) (hnt : nt ≠ "") :
    (∀ fq? ra? nt', updateDailyQuota s uid fq? ra? nt'
      ≠ Except.error Err.AccountNotFound) ∧
    ∃ s' a,
      updateDailyQuota s uid (some fq) (some ra) nt = Except.ok (s', a) ∧
      s'.getAccount OwnerType.USER uid = some a ∧
      a.free_quota = fq ∧ a.refill_amount = ra ∧ a.credits = 0 ∧
      a.free_credits = 0 ∧ a.reward_credits = 0 ∧
      s'.events = s.events ∧ s'.txs = s.txs := by
  refine ⟨fun fq? ra? nt' =>
    updateDailyQuota_no_account_not_found s uid fq? ra? nt', ?_⟩
  obtain ⟨hg1, hg2, hg3, hg4, hg5, hg6, hg7⟩ :=
    getOrCreateInSession_spec s OwnerType.USER uid
  have hbase := getOrCreateInSession_none hacc
  have hrun := updateDailyQuota_eq_run s uid (some fq) (some ra) nt
  unfold updateDailyQuotaRun at hrun
  rw [if_neg (by simp)] at hrun
  dsimp only at hrun
  rw [if_neg (by simpa using not_le.mpr hfq)] at hrun
  rw [if_neg (by simpa using not_lt.mpr hra)] at hrun
  simp only [Option.getD_some] at hrun
  rw [if_neg (not_lt.mpr hle)] at hrun
  rw [if_neg hnt] at hrun
  refine ⟨_, _, hrun, ?_, rfl, rfl, ?_, ?_, ?_, ?_, ?_⟩
  · have hko : (setQuota (getOrCreateInSession s OwnerType.USER uid).2
        fq ra).owner_type = OwnerType.USER := by
      rw [setQuota_owner_type, hg1]
    have hki : (setQuota (getOrCreateInSession s OwnerType.USER uid).2
        fq ra).owner_id = uid := by
      rw [setQuota_owner_id, hg2]
    have hset := getAccount_setAccount_self
      (getOrCreateInSession s OwnerType.USER uid).1
      (setQuota (getOrCreateInSession s OwnerType.USER uid).2 fq ra)
    rw [hko, hki, hg3] at hset
    exact hset
  · rw [setQuota_credits, hbase]
  · rw [setQuota_free_credits, hbase]
  · rw [setQuota_reward_credits, hbase]
  · rw [setAccount_events]; exact hg4
  · rw [setAccount_txs]; exact hg5

/-- Witness for C6 (amended) at the empty store with quota 100 and
refill 20. -/
theorem claim6_witness :
    (∀ fq? ra? nt', updateDailyQuota Store.empty "u1" fq? ra? nt'
      ≠ Except.error Err.AccountNotFound) ∧
    ∃ s' a,
      updateDailyQuota Store.empty "u1" (some 100) (some 20) "init"
        = Except.ok (s', a) ∧
      s'.getAccount OwnerType.USER "u1" = some a ∧
      a.free_quota = 100 ∧ a.refill_amount = 20 ∧ a.credits = 0 ∧
      a.free_credits = 0 ∧ a.reward_credits = 0 ∧
      s'.events = Store.empty.events ∧ s'.txs = Store.empty.txs :=
  claim6_amended Store.empty "u1" 100 20 "init" rfl (by norm_num)
    (by norm_num) (by norm_num) (by simp)

/-- C7: `update_daily_quota` fails with `InvalidAmount` whenever the
effective values after the update (the account's existing value standing
in for an omitted parameter) would violate `refill_amount ≤ free_quota`;
it fails when both parameters are omitted or the note is empty; and on
success it overwrites only the two quota settings — balances are
untouched and no `CreditEvent` or `CreditTransaction` is written. -/
theorem claim7_quota_update_invariant (s : Store) (uid : String)
    (fq? ra? : Option ℚ) (nt : String) :
    (fq? = none ∧ ra? = none →
      updateDailyQuota s uid fq? ra? nt
        = Except.error Err.InvalidAmount) ∧
    (fq?.getD (getOrCreateInSession s OwnerType.USER uid).2.free_quota
        < ra?.getD
          (getOrCreateInSession s OwnerType.USER uid).2.refill_amount →
      updateDailyQuota s uid fq? ra? nt
        = Except.error Err.InvalidAmount) ∧
    (nt = "" → ∀ r, updateDailyQuota s uid fq? ra? nt ≠ Except.ok r) ∧
    (∀ s' a, updateDailyQuota s uid fq? ra? nt = Except.ok (s', a) →
      a.free_quota
        = fq?.getD
          (getOrCreateInSession s OwnerType.USER uid).2.free_quota ∧
      a.refill_amount
        = ra?.getD
          (getOrCreateInSession s OwnerType.USER uid).2.refill_amount ∧
      a.refill_amount ≤ a.free_quota ∧
      a.credits = (getOrCreateInSession s OwnerType.USER uid).2.credits ∧
      a.free_credits
        = (getOrCreateInSession s OwnerType.USER uid).2.free_credits ∧
      a.reward_credits
        = (getOrCreateInSession s OwnerType.USER uid).2.reward_credits ∧
      s'.getAccount OwnerType.USER uid = some a ∧
      s'.events = s.events ∧ s'.txs = s.txs) := by
  obtain ⟨hg1, hg2, hg3, hg4, hg5, hg6, hg7⟩ :=
    getOrCreateInSession_spec s OwnerType.USER uid
  rw [updateDailyQuota_eq_run]
  unfold updateDailyQuotaRun
  refine ⟨fun hnone => by rw [if_pos hnone], ?_, ?_, ?_⟩
  · intro hviol
    by_cases hnone : fq? = none ∧ ra? = none
    · rw [if_pos hnone]
    · rw [if_neg hnone]
      dsimp only
      by_cases hq : fq?.any (fun q => decide (q ≤ 0)) = true
      · rw [if_pos hq]
      · rw [if_neg hq]
        by_cases hr : ra?.any (fun r => decide (r < 0)) = true
        · rw [if_pos hr]
        · rw [if_neg hr]
          rw [if_pos hviol]
  · intro hnt r
    split
    · simp
    · dsimp only
      split
      · simp
      · split
        · simp
        · split
          · simp
          · simp [hnt]
  · intro s' a h
    split at h
    · exact absurd h (by simp)
    · dsimp only at h
      split at h
      · exact absurd h (by simp)
      · split at h
        · exact absurd h (by simp)
        · rename_i hq hr
          split at h
          · exact absurd h (by simp)
          · rename_i hviol
            split at h
            · exact absurd h (by simp)
            · injection h with h
              injection h with hs ha
              subst hs
              subst ha
              refine ⟨rfl, rfl, not_lt.mp hviol, rfl, rfl, rfl, ?_, ?_,
                ?_⟩
              · have hko : (setQuota
                    (getOrCreateInSession s OwnerType.USER uid).2
                    (fq?.getD (getOrCreateInSession s
                      OwnerType.USER uid).2.free_quota)
                    (ra?.getD (getOrCreateInSession s
                      OwnerType.USER uid).2.refill_amount)).owner_type
                    = OwnerType.USER := by
                  rw [setQuota_owner_type, hg1]
                have hki : (setQuota
                    (getOrCreateInSession s OwnerType.USER uid).2
                    (fq?.getD (getOrCreateInSession s
                      OwnerType.USER uid).2.free_quota)
                    (ra?.getD (getOrCreateInSession s
                      OwnerType.USER uid).2.refill_amount)).owner_id
                    = uid := by
                  rw [setQuota_owner_id, hg2]
                have hset := getAccount_setAccount_self
                  (getOrCreateInSession s OwnerType.USER uid).1
                  (setQuota (getOrCreateInSession s OwnerType.USER uid).2
                    (fq?.getD (getOrCreateInSession s
                      OwnerType.USER uid).2.free_quota)
                    (ra?.getD (getOrCreateInSession s
                      OwnerType.USER uid).2.refill_amount))
                rw [hko, hki, hg3] at hset
                exact hset
              · rw [setAccount_events]; exact hg4
              · rw [setAccount_txs]; exact hg5

/-- Witness for C7: a violating update is rejected with `InvalidAmount`
on the empty store (effective quota 5, effective refill 10). -/
theorem claim7_witness :
    updateDailyQuota Store.empty "u1" (some 5) (some 10) "n"
      = Except.error Err.InvalidAmount :=
  (claim7_quota_update_invariant Store.empty "u1" (some 5) (some 10)
    "n").2.1 (by norm_num)

/-- Expected user row after a recharge on the empty store. -/
def rechargeFreshUser (uid : String) (amount : ℚ) : CreditAccount :=
  ⟨0, OwnerType.USER, uid, amount, 0, 0, 0, 0, 0⟩

/-- Expected platform RECHARGE row after a recharge on the empty store:
the permanent pool went negative. -/
def rechargeFreshPlatform (amount : ℚ) : CreditAccount :=
  ⟨1, OwnerType.PLATFORM, PLATFORM_RECHARGE, -amount, 0, 0, 0, 0, 0⟩

/-- Expected event row after a recharge on the empty store. -/
def rechargeFreshEvent (tx : String) (note : Option String)
    (amount : ℚ) : CreditEvent :=
  ⟨2, EventType.RECHARGE, UpstreamType.API, tx, Direction.INCOME, 0,
    amount, CreditType.PERMANENT, amount, amount, amount, none, none,
    none, none, none, none, none, note⟩

/-- Expected CREDIT leg (user side). -/
def rechargeFreshTx1 (amount : ℚ) : CreditTransaction :=
  ⟨3, 0, 2, TransactionType.RECHARGE, CreditDebit.CREDIT, amount,
    CreditType.PERMANENT⟩

/-- Expected DEBIT leg (platform side). -/
def rechargeFreshTx2 (amount : ℚ) : CreditTransaction :=
  ⟨4, 1, 2, TransactionType.RECHARGE, CreditDebit.DEBIT, amount,
    CreditType.PERMANENT⟩

/-- Expected store after a recharge on the empty store. -/
def rechargeFreshStore (uid tx : String) (note : Option String)
    (amount : ℚ) : Store :=
  { accounts := [rechargeFreshUser uid amount,
      rechargeFreshPlatform amount],
    events := [rechargeFreshEvent tx note amount],
    txs := [rechargeFreshTx1 amount, rechargeFreshTx2 amount],
    nextId := 5, now := 0 }

theorem recharge_empty_eq (uid tx : String) (note : Option String)
    (amount : ℚ) (h : 0 < amount) :
    recharge Store.empty uid amount tx note
      = Except.ok (rechargeFreshStore uid tx note amount,
        rechargeFreshUser uid amount) := by
  simp [recharge, Store.empty, checkUpstreamTxIdExists, incomeInSession,
    deductionInSession, getOrCreateInSession, Store.getAccount,
    Store.setAccount, Store.freshId, CreditAccount.applyRefill,
    CreditAccount.addPool, CreditAccount.pool, keyP,
    if_neg (not_le.mpr h), bind, Except.bind, pure, Except.pure,
    rechargeFreshUser, rechargeFreshPlatform, rechargeFreshEvent,
    rechargeFreshTx1, rechargeFreshTx2, rechargeFreshStore]

/-- C2: `recharge(user_id, amount, upstream_tx_id)` with `amount > 0` on
a fresh (empty) system adds `amount` to the user's permanent pool and
subtracts `amount` from the platform RECHARGE account's permanent pool,
which thereby goes negative; exactly one INCOME event is written, with
`total_amount = amount`, `credit_type = PERMANENT` and
`balance_after = amount`, together with exactly two legs: a CREDIT of
`amount` on the user and a DEBIT of `amount` on platform RECHARGE. -/
theorem claim2_recharge_fresh_system (uid tx : String)
    (note : Option String) (amount : ℚ) (h : 0 < amount) :
    ∃ s' ua pa e t1 t2,
      recharge Store.empty uid amount tx note = Except.ok (s', ua) ∧
      s'.getAccount OwnerType.USER uid = some ua ∧
      ua.credits = amount ∧ ua.free_credits = 0 ∧
      ua.reward_credits = 0 ∧
      s'.getAccount OwnerType.PLATFORM PLATFORM_RECHARGE = some pa ∧
      pa.credits = -amount ∧ pa.free_credits = 0 ∧
      pa.reward_credits = 0 ∧
      s'.events = [e] ∧ e.event_type = EventType.RECHARGE ∧
      e.direction = Direction.INCOME ∧ e.total_amount = amount ∧
      e.credit_type = CreditType.PERMANENT ∧ e.balance_after = amount ∧
      e.account_id = ua.id ∧ e.upstream_tx_id = tx ∧
      e.upstream_type = UpstreamType.API ∧
      s'.txs = [t1, t2] ∧
      t1.account_id = ua.id ∧ t1.event_id = e.id ∧
      t1.credit_debit = CreditDebit.CREDIT ∧
      t1.change_amount = amount ∧
      t1.credit_type = CreditType.PERMANENT ∧
      t2.account_id = pa.id ∧ t2.event_id = e.id ∧
      t2.credit_debit = CreditDebit.DEBIT ∧
      t2.change_amount = amount ∧
      t2.credit_type = CreditType.PERMANENT := by
  refine ⟨rechargeFreshStore uid tx note amount,
    rechargeFreshUser uid amount, rechargeFreshPlatform amount,
    rechargeFreshEvent tx note amount, rechargeFreshTx1 amount,
    rechargeFreshTx2 amount, recharge_empty_eq uid tx note amount h,
    ?_, rfl, rfl, rfl, ?_, ?_, rfl, rfl, rfl, rfl, rfl, rfl, rfl, rfl,
    rfl, rfl, rfl, rfl, rfl, rfl, rfl, rfl, rfl, rfl, rfl, rfl, rfl,
    rfl⟩
  · simp [rechargeFreshStore, rechargeFreshUser, Store.getAccount, keyP]
  · simp [rechargeFreshStore, rechargeFreshUser, rechargeFreshPlatform,
      Store.getAccount, keyP]
  · simp [rechargeFreshPlatform]

/-- Witness for C2 at `amount = 100`. -/
theorem claim2_witness :
    ∃ s' ua pa e t1 t2,
      recharge Store.empty "u1" 100 "t1" none = Except.ok (s', ua) ∧
      s'.getAccount OwnerType.USER "u1" = some ua ∧
      ua.credits = 100 ∧ ua.free_credits = 0 ∧
      ua.reward_credits = 0 ∧
      s'.getAccount OwnerType.PLATFORM PLATFORM_RECHARGE = some pa ∧
      pa.credits = -100 ∧ pa.free_credits = 0 ∧
      pa.reward_credits = 0 ∧
      s'.events = [e] ∧ e.event_type = EventType.RECHARGE ∧
      e.direction = Direction.INCOME ∧ e.total_amount = 100 ∧
      e.credit_type = CreditType.PERMANENT ∧ e.balance_after = 100 ∧
      e.account_id = ua.id ∧ e.upstream_tx_id = "t1" ∧
      e.upstream_type = UpstreamType.API ∧
      s'.txs = [t1, t2] ∧
      t1.account_id = ua.id ∧ t1.event_id = e.id ∧
      t1.credit_debit = CreditDebit.CREDIT ∧
      t1.change_amount = 100 ∧
      t1.credit_type = CreditType.PERMANENT ∧
      t2.account_id = pa.id ∧ t2.event_id = e.id ∧
      t2.credit_debit = CreditDebit.DEBIT ∧
      t2.change_amount = 100 ∧
      t2.credit_type = CreditType.PERMANENT :=
  claim2_recharge_fresh_system "u1" "t1" none 100 (by norm_num)

/-- C4: `adjustment(user_id, credit_type, amount, upstream_tx_id, note)`
with `amount < 0` debits `|amount|` from the user's pool named by
`credit_type` and credits the platform ADJUSTMENT account's same pool by
`|amount|`; the user's pool may land exactly on zero but never below, and
when the (refill-adjusted) pool balance is smaller than `|amount|` the
call fails with `InsufficientFunds` — the orchestrator returns
`Except.error`, i.e. the transaction rolls back and every balance is
unchanged. -/
theorem claim4_negative_adjustment (s : Store) (uid : String)
    (ct : CreditType) (amount : ℚ) (tx : String) (note : String)
    (hdup : ¬∃ e ∈ s.events, e.upstream_type = UpstreamType.API ∧
      e.upstream_tx_id = tx)
    (hneg : amount < 0) (hnote : note ≠ "") :
    ((refilled s OwnerType.USER uid).pool ct < -amount →
      adjustment s uid ct amount tx note
        = Except.error Err.InsufficientFunds) ∧
    (∀ s' a, adjustment s uid ct amount tx note = Except.ok (s', a) →
      -amount ≤ (refilled s OwnerType.USER uid).pool ct ∧
      a.pool ct = (refilled s OwnerType.USER uid).pool ct + amount ∧
      0 ≤ a.pool ct ∧
      s'.getAccount OwnerType.USER uid = some a ∧
      ∃ p, s'.getAccount OwnerType.PLATFORM PLATFORM_ADJUSTMENT
          = some p ∧
        p.pool ct = (refilled s OwnerType.PLATFORM
          PLATFORM_ADJUSTMENT).pool ct - amount) := by
  have habs : |amount| = -amount := abs_of_neg hneg
  constructor
  · intro hlt
    have hdd := @deductionInSession_insufficient s OwnerType.USER uid
      ct |amount| (by simp) (by rw [habs]; exact hlt)
    unfold adjustment
    simp only [bind, Except.bind, pure, Except.pure]
    rw [checkUpstreamTxIdExists_ok hdup]
    dsimp only
    rw [if_neg (ne_of_lt hneg)]
    rw [if_neg hnote]
    rw [if_neg (not_lt.mpr (le_of_lt hneg))]
    rw [hdd]
  · intro s' a h
    obtain ⟨hchk, h0, hn, sU, sP, p, hu, hp, hacc, hnow, hnext, hev,
      htx⟩ := adjustment_ok_spec h
    rw [if_neg (not_lt.mpr (le_of_lt hneg))] at hu hp
    obtain ⟨hd1, hd2, hd3, hd4, hd5, hd6, hd7, hd8, hd9, hd10⟩ :=
      deductionInSession_ok hu
    obtain ⟨hi1, hi2, hi3, hi4, hi5, hi6, hi7, hi8, hi9, hi10⟩ :=
      incomeInSession_ok hp
    have hnotlt : ¬(refilled s OwnerType.USER uid).pool ct < |amount| :=
      fun hc => hd1 ⟨by simp, hc⟩
    have hle : -amount ≤ (refilled s OwnerType.USER uid).pool ct := by
      rw [← habs]; exact not_lt.mp hnotlt
    have hapool : a.pool ct
        = (refilled s OwnerType.USER uid).pool ct + amount := by
      rw [hd2]
      show ((refilled s OwnerType.USER uid).addPool ct (-|amount|)).pool
        ct = _
      rw [addPool_pool_same, habs]
      ring
    refine ⟨hle, hapool, by rw [hapool]; linarith, ?_, p, ?_, ?_⟩
    · rw [getAccount_congr hacc]
      rw [hi6 OwnerType.USER uid (by simp)]
      exact hd5
    · rw [getAccount_congr hacc]
      exact hi5
    · have hppool : p.pool ct
          = (refilled sU OwnerType.PLATFORM PLATFORM_ADJUSTMENT).pool ct
            + |amount| := by
        rw [hi2]
        show ((refilled sU OwnerType.PLATFORM
          PLATFORM_ADJUSTMENT).addPool ct |amount|).pool ct = _
        rw [addPool_pool_same]
      rw [hppool, habs]
      have hcong := @refilled_pool_congr sU s OwnerType.PLATFORM
        PLATFORM_ADJUSTMENT
        (hd6 OwnerType.PLATFORM PLATFORM_ADJUSTMENT (by simp)) hd9 ct
      rw [hcong]
      ring

/-- Witness store for C4: one user `u1` with 5 permanent credits. -/
def sampleUserStore5 : Store :=
  { accounts := [⟨0, OwnerType.USER, "u1", 5, 0, 0, 0, 0, 0⟩],
    events := [], txs := [], nextId := 1, now := 0 }

/-- Concrete run: adjusting user `u1` by −5 on `sampleUserStore5`. -/
theorem adjustmentNeg5_eq :
    adjustment sampleUserStore5 "u1" CreditType.PERMANENT
        (-5) "t9" "n" = Except.ok
          (⟨[⟨0, OwnerType.USER, "u1", 0, 0, 0, 0, 0, 0⟩,
             ⟨1, OwnerType.PLATFORM, PLATFORM_ADJUSTMENT, 5, 0, 0, 0, 0,
               0⟩],
            [⟨2, EventType.ADJUSTMENT, UpstreamType.API, "t9",
              Direction.EXPENSE, 0, 5, CreditType.PERMANENT, 0, 5, 5,
              none, none, none, none, none, none, none, some "n"⟩],
            [⟨3, 0, 2, TransactionType.ADJUSTMENT, CreditDebit.DEBIT, 5,
              CreditType.PERMANENT⟩,
             ⟨4, 1, 2, TransactionType.ADJUSTMENT, CreditDebit.CREDIT,
              5, CreditType.PERMANENT⟩],
            5, 0⟩,
           ⟨0, OwnerType.USER, "u1", 0, 0, 0, 0, 0, 0⟩) := by
  have habs5 : |(-5 : ℚ)| = 5 := by norm_num
  simp [adjustment, checkUpstreamTxIdExists, incomeInSession,
    deductionInSession, getOrCreateInSession, Store.getAccount,
    Store.setAccount, Store.freshId, CreditAccount.applyRefill,
    CreditAccount.addPool, CreditAccount.pool, keyP, bind,
    Except.bind, pure, Except.pure, sampleUserStore5, habs5,
    PLATFORM_ADJUSTMENT]
  norm_num

/-- Witness for C4: on a user with 5 permanent credits, adjusting by −10
is rejected with `InsufficientFunds`, and adjusting by −5 drives the pool
exactly to zero. -/
theorem claim4_witness :
    adjustment sampleUserStore5 "u1" CreditType.PERMANENT (-10) "t9" "n"
      = Except.error Err.InsufficientFunds ∧
    ∃ s' a, adjustment sampleUserStore5 "u1" CreditType.PERMANENT (-5)
        "t9" "n" = Except.ok (s', a) ∧
      a.pool CreditType.PERMANENT = 0 := by
  have h5 : (refilled sampleUserStore5 OwnerType.USER "u1").pool
      CreditType.PERMANENT = 5 := by
    simp [refilled, getOrCreateInSession, Store.getAccount, keyP,
      sampleUserStore5, CreditAccount.applyRefill, CreditAccount.pool]
  constructor
  · exact (claim4_negative_adjustment sampleUserStore5 "u1"
      CreditType.PERMANENT (-10) "t9" "n" (by simp [sampleUserStore5])
      (by norm_num) (by simp)).1 (by rw [h5]; norm_num)
  · have hok := adjustmentNeg5_eq
    refine ⟨_, _, hok, ?_⟩
    have hth := ((claim4_negative_adjustment sampleUserStore5 "u1"
      CreditType.PERMANENT (-5) "t9" "n" (by simp [sampleUserStore5])
      (by norm_num) (by simp)).2 _ _ hok).2.1
    rw [hth, h5]
    norm_num

/-- C5: in `expense_message`, `fee_agent_amount` equals
`base_llm_amount × agent_fee_percentage` when `user_id ≠ agent_owner_id`
and 0 when the user owns the agent; `total_amount` equals
`base_amount + fee_platform_amount + fee_agent_amount`; and a
`RECEIVE_FEE_AGENT` CREDIT leg is created if and only if
`fee_agent_amount > 0`. -/
theorem claim5_expense_fee_computation (pct : ℚ) (s : Store)
    (agent uid mid smid owner : String) (base afp : ℚ) (s' : Store)
    (a : CreditAccount)
    (h : expenseMessage pct s agent uid mid smid base afp owner
      = Except.ok (s', a)) :
    (uid ≠ owner → feeAgentAmt uid owner base afp = base * afp) ∧
    (uid = owner → feeAgentAmt uid owner base afp = 0) ∧
    ∃ e L, s'.events = s.events ++ [e] ∧ s'.txs = s.txs ++ L ∧
      e.fee_agent_amount = some (feeAgentAmt uid owner base afp) ∧
      e.fee_platform_amount = some (base * pct) ∧
      e.base_amount = base ∧
      e.total_amount
        = base + base * pct + feeAgentAmt uid owner base afp ∧
      ((∃ t ∈ L, t.tx_type = TransactionType.RECEIVE_FEE_AGENT) ↔
        0 < feeAgentAmt uid owner base afp) ∧
      (∀ t ∈ L, t.tx_type = TransactionType.RECEIVE_FEE_AGENT →
        t.credit_debit = CreditDebit.CREDIT ∧
        t.change_amount = feeAgentAmt uid owner base afp ∧
        t.event_id = e.id) := by
  refine ⟨fun hne => by simp [feeAgentAmt, hne],
    fun heq => by simp [feeAgentAmt, heq], ?_⟩
  by_cases hfa : 0 < feeAgentAmt uid owner base afp
  · obtain ⟨hc, hb, sU, ctr, sP, p, sA, aa, he, hp, ha, hacc, hnow,
      hnext, hev, htx⟩ := expenseMessage_ok_spec_agent hfa h
    obtain ⟨_, _, _, _, _, _, _, heev, hetx, _⟩ := expenseInSession_ok he
    obtain ⟨_, _, _, _, _, _, hpev, hptx, _, _⟩ := incomeInSession_ok hp
    obtain ⟨_, _, _, _, _, _, haev, hatx, _, _⟩ := incomeInSession_ok ha
    rw [haev, hpev, heev] at hev
    rw [hatx, hptx, hetx] at htx
    refine ⟨_, _, hev, htx, rfl, rfl, rfl, rfl, ?_, ?_⟩
    · simp only [List.mem_cons, List.mem_singleton]
      constructor
      · intro _; exact hfa
      · intro _
        refine ⟨⟨sA.nextId + 3, aa.id, sA.nextId,
          TransactionType.RECEIVE_FEE_AGENT, CreditDebit.CREDIT,
          feeAgentAmt uid owner base afp, ctr⟩, ?_, rfl⟩
        simp
    · intro t ht htype
      simp only [List.mem_cons, List.not_mem_nil, or_false] at ht
      rcases ht with h1 | h2 | h3
      · rw [h1] at htype; exact absurd htype (by simp)
      · rw [h2] at htype; exact absurd htype (by simp)
      · rw [h3]; exact ⟨rfl, rfl, rfl⟩
  · obtain ⟨hc, hb, sU, ctr, sP, p, he, hp, hacc, hnow, hnext, hev,
      htx⟩ := expenseMessage_ok_spec_noagent hfa h
    obtain ⟨_, _, _, _, _, _, _, heev, hetx, _⟩ := expenseInSession_ok he
    obtain ⟨_, _, _, _, _, _, hpev, hptx, _, _⟩ := incomeInSession_ok hp
    rw [hpev, heev] at hev
    rw [hptx, hetx] at htx
    refine ⟨_, _, hev, htx, rfl, rfl, rfl, rfl, ?_, ?_⟩
    · simp only [List.mem_cons, List.not_mem_nil, or_false]
      constructor
      · rintro ⟨t, ht, htype⟩
        rcases ht with h1 | h2
        · rw [h1] at htype; exact absurd htype (by simp)
        · rw [h2] at htype; exact absurd htype (by simp)
      · intro hpos; exact absurd hpos hfa
    · intro t ht htype
      simp only [List.mem_cons, List.not_mem_nil, or_false] at ht
      rcases ht with h1 | h2
      · rw [h1] at htype; exact absurd htype (by simp)
      · rw [h2] at htype; exact absurd htype (by simp)

/-- Witness store for C5: one user `u1` with pools (10, 3, 2). -/
def sampleRichStore : Store :=
  { accounts := [⟨0, OwnerType.USER, "u1", 10, 3, 2, 0, 0, 0⟩],
    events := [], txs := [], nextId := 1, now := 0 }

set_option maxHeartbeats 2000000 in
/-- Concrete run: the spec's tri-pool scenario on `sampleRichStore`. -/
theorem expenseSample_eq :
    expenseMessage (1/4) sampleRichStore "a1" "u1" "m1" "m0" 4
      (1/2) "u2" = Except.ok
        (⟨[⟨0, OwnerType.USER, "u1", 8, 0, 0, 0, 0, 0⟩,
           ⟨1, OwnerType.PLATFORM, PLATFORM_FEE, 1, 0, 0, 0, 0, 0⟩,
           ⟨2, OwnerType.AGENT, "a1", 2, 0, 0, 0, 0, 0⟩],
          [⟨3, EventType.MESSAGE, UpstreamType.EXECUTOR, "m1",
            Direction.EXPENSE, 0, 7, CreditType.PERMANENT, 8, 4, 4,
            some 4, some 1, some 2, some 2, some "a1", some "m1",
            some "m0", none⟩],
          [⟨4, 0, 3, TransactionType.PAY, CreditDebit.DEBIT, 7,
            CreditType.PERMANENT⟩,
           ⟨5, 1, 3, TransactionType.RECEIVE_FEE_PLATFORM,
            CreditDebit.CREDIT, 1, CreditType.PERMANENT⟩,
           ⟨6, 2, 3, TransactionType.RECEIVE_FEE_AGENT,
            CreditDebit.CREDIT, 2, CreditType.PERMANENT⟩],
          7, 0⟩,
         ⟨0, OwnerType.USER, "u1", 8, 0, 0, 0, 0, 0⟩) := by
  simp [expenseMessage, checkUpstreamTxIdExists, incomeInSession,
    expenseInSession, expenseSplit, getOrCreateInSession,
    Store.getAccount, Store.setAccount, Store.freshId,
    CreditAccount.applyRefill, CreditAccount.addPool,
    CreditAccount.pool, keyP, bind, Except.bind, pure, Except.pure,
    sampleRichStore, PLATFORM_FEE]
  norm_num [min_def]
  simp [Store.setAccount, Store.getAccount, keyP, PLATFORM_FEE]

/-- Witness for C5 at the spec's tri-pool scenario: base 4, platform fee
25%, agent fee 50%, agent owned by someone else. -/
theorem claim5_witness :
    ("u1" ≠ "u2" → feeAgentAmt "u1" "u2" 4 (1/2) = 4 * (1/2)) ∧
    ("u1" = "u2" → feeAgentAmt "u1" "u2" 4 (1/2) = 0) ∧
    ∃ e L,
      (match expenseMessage (1/4) sampleRichStore "a1" "u1" "m1" "m0" 4
          (1/2) "u2" with
        | Except.ok (s', _) => s'.events
        | Except.error _ => []) = sampleRichStore.events ++ [e] ∧
      (match expenseMessage (1/4) sampleRichStore "a1" "u1" "m1" "m0" 4
          (1/2) "u2" with
        | Except.ok (s', _) => s'.txs
        | Except.error _ => []) = sampleRichStore.txs ++ L ∧
      e.fee_agent_amount = some (feeAgentAmt "u1" "u2" 4 (1/2)) ∧
      e.fee_platform_amount = some (4 * (1/4)) ∧
      e.base_amount = 4 ∧
      e.total_amount = 4 + 4 * (1/4) + feeAgentAmt "u1" "u2" 4 (1/2) ∧
      ((∃ t ∈ L, t.tx_type = TransactionType.RECEIVE_FEE_AGENT) ↔
        0 < feeAgentAmt "u1" "u2" 4 (1/2)) ∧
      (∀ t ∈ L, t.tx_type = TransactionType.RECEIVE_FEE_AGENT →
        t.credit_debit = CreditDebit.CREDIT ∧
        t.change_amount = feeAgentAmt "u1" "u2" 4 (1/2) ∧
        t.event_id = e.id) := by
  have hok := expenseSample_eq
  have hth := claim5_expense_fee_computation (1/4) sampleRichStore "a1"
    "u1" "m1" "m0" "u2" 4 (1/2) _ _ hok
  obtain ⟨h1, h2, e, L, hev, htx, rest⟩ := hth
  refine ⟨h1, h2, e, L, ?_, ?_, rest⟩
  · rw [hok]
    exact hev
  · rw [hok]
    exact htx

set_option maxHeartbeats 2000000 in
/-- Concrete run: `reward` of 7 on the empty store. -/
theorem rewardSample_eq :
    rewardOp Store.empty "u1" 7 "t2" none = Except.ok
      (⟨[⟨0, OwnerType.USER, "u1", 0, 0, 7, 0, 0, 0⟩,
         ⟨1, OwnerType.PLATFORM, PLATFORM_REWARD, 0, 0, -7, 0, 0, 0⟩],
        [⟨2, EventType.REWARD, UpstreamType.API, "t2", Direction.INCOME,
          0, 7, CreditType.REWARD, 7, 7, 7, none, none, none, none,
          none, none, none, none⟩],
        [⟨3, 0, 2, TransactionType.REWARD, CreditDebit.CREDIT, 7,
          CreditType.REWARD⟩,
         ⟨4, 1, 2, TransactionType.REWARD, CreditDebit.DEBIT, 7,
          CreditType.REWARD⟩],
        5, 0⟩,
       ⟨0, OwnerType.USER, "u1", 0, 0, 7, 0, 0, 0⟩) := by
  have h7 : ¬(7 : ℚ) ≤ 0 := by norm_num
  simp [rewardOp, Store.empty, checkUpstreamTxIdExists, incomeInSession,
    deductionInSession, getOrCreateInSession, Store.getAccount,
    Store.setAccount, Store.freshId, CreditAccount.applyRefill,
    CreditAccount.addPool, CreditAccount.pool, keyP, bind,
    Except.bind, pure, Except.pure, PLATFORM_REWARD, if_neg h7, h7]

/-- C8: every `CreditEvent` written by `recharge`, `reward`,
`adjustment` and `expense_message` carries `balance_after` equal to
`credits + free_credits + reward_credits` of the event's (user) account
immediately after the operation's mutation of that account — i.e. of the
user row as committed in the resulting store. -/
theorem claim8_balance_after_sum_of_pools (pct : ℚ) (s : Store)
    (uid agent mid smid tx owner : String) (note : Option String)
    (noteS : String) (ct : CreditType) (amount base afp : ℚ) :
    (∀ s' a, recharge s uid amount tx note = Except.ok (s', a) →
      ∃ e, s'.events = s.events ++ [e] ∧
        s'.getAccount OwnerType.USER uid = some a ∧
        e.account_id = a.id ∧
        e.balance_after
          = a.credits + a.free_credits + a.reward_credits) ∧
    (∀ s' a, rewardOp s uid amount tx note = Except.ok (s', a) →
      ∃ e, s'.events = s.events ++ [e] ∧
        s'.getAccount OwnerType.USER uid = some a ∧
        e.account_id = a.id ∧
        e.balance_after
          = a.credits + a.free_credits + a.reward_credits) ∧
    (∀ s' a, adjustment s uid ct amount tx noteS = Except.ok (s', a) →
      ∃ e, s'.events = s.events ++ [e] ∧
        s'.getAccount OwnerType.USER uid = some a ∧
        e.account_id = a.id ∧
        e.balance_after
          = a.credits + a.free_credits + a.reward_credits) ∧
    (∀ s' a, expenseMessage pct s agent uid mid smid base afp owner
        = Except.ok (s', a) →
      ∃ e, s'.events = s.events ++ [e] ∧
        s'.getAccount OwnerType.USER uid = some a ∧
        e.account_id = a.id ∧
        e.balance_after
          = a.credits + a.free_credits + a.reward_credits) := by
  refine ⟨?_, ?_, ?_, ?_⟩
  · intro s' a h
    obtain ⟨hc, hpos, sU, sP, p, hi, hd, hacc, hnow, hnext, hev, htx⟩ :=
      recharge_ok_spec h
    obtain ⟨_, _, _, _, hi5, hi6, hi7, hi8, _, _⟩ := incomeInSession_ok hi
    obtain ⟨_, _, _, _, hd5, hd6, hd7, hd8, _, _⟩ :=
      deductionInSession_ok hd
    rw [hd7, hi7] at hev
    refine ⟨_, hev, ?_, rfl, rfl⟩
    rw [getAccount_congr hacc]
    rw [hd6 OwnerType.USER uid (by simp)]
    exact hi5
  · intro s' a h
    obtain ⟨hc, hpos, sU, sP, p, hi, hd, hacc, hnow, hnext, hev, htx⟩ :=
      rewardOp_ok_spec h
    obtain ⟨_, _, _, _, hi5, hi6, hi7, hi8, _, _⟩ := incomeInSession_ok hi
    obtain ⟨_, _, _, _, hd5, hd6, hd7, hd8, _, _⟩ :=
      deductionInSession_ok hd
    rw [hd7, hi7] at hev
    refine ⟨_, hev, ?_, rfl, rfl⟩
    rw [getAccount_congr hacc]
    rw [hd6 OwnerType.USER uid (by simp)]
    exact hi5
  · intro s' a h
    obtain ⟨hc, h0, hn, sU, sP, p, hu, hp, hacc, hnow, hnext, hev,
      htx⟩ := adjustment_ok_spec h
    by_cases hpos : 0 < amount
    · rw [if_pos hpos] at hu hp
      obtain ⟨_, _, _, _, hu5, hu6, hu7, hu8, _, _⟩ :=
        incomeInSession_ok hu
      obtain ⟨_, _, _, _, hp5, hp6, hp7, hp8, _, _⟩ :=
        deductionInSession_ok hp
      rw [hp7, hu7] at hev
      refine ⟨_, hev, ?_, rfl, rfl⟩
      rw [getAccount_congr hacc]
      rw [hp6 OwnerType.USER uid (by simp)]
      exact hu5
    · rw [if_neg hpos] at hu hp
      obtain ⟨_, _, _, _, hu5, hu6, hu7, hu8, _, _⟩ :=
        deductionInSession_ok hu
      obtain ⟨_, _, _, _, hp5, hp6, hp7, hp8, _, _⟩ :=
        incomeInSession_ok hp
      rw [hp7, hu7] at hev
      refine ⟨_, hev, ?_, rfl, rfl⟩
      rw [getAccount_congr hacc]
      rw [hp6 OwnerType.USER uid (by simp)]
      exact hu5
  · intro s' a h
    by_cases hfa : 0 < feeAgentAmt uid owner base afp
    · obtain ⟨hc, hb, sU, ctr, sP, p, sA, aa, he, hp, ha, hacc, hnow,
        hnext, hev, htx⟩ := expenseMessage_ok_spec_agent hfa h
      obtain ⟨_, _, _, _, _, he6, he7, he8, he9, _, _⟩ :=
        expenseInSession_ok he
      obtain ⟨_, _, _, _, hp5, hp6, hp7, hp8, _, _⟩ :=
        incomeInSession_ok hp
      obtain ⟨_, _, _, _, ha5, ha6, ha7, ha8, _, _⟩ :=
        incomeInSession_ok ha
      rw [ha7, hp7, he8] at hev
      refine ⟨_, hev, ?_, rfl, rfl⟩
      rw [getAccount_congr hacc]
      rw [ha6 OwnerType.USER uid (by simp)]
      rw [hp6 OwnerType.USER uid (by simp)]
      exact he6
    · obtain ⟨hc, hb, sU, ctr, sP, p, he, hp, hacc, hnow, hnext, hev,
        htx⟩ := expenseMessage_ok_spec_noagent hfa h
      obtain ⟨_, _, _, _, _, he6, he7, he8, he9, _, _⟩ :=
        expenseInSession_ok he
      obtain ⟨_, _, _, _, hp5, hp6, hp7, hp8, _, _⟩ :=
        incomeInSession_ok hp
      rw [hp7, he8] at hev
      refine ⟨_, hev, ?_, rfl, rfl⟩
      rw [getAccount_congr hacc]
      rw [hp6 OwnerType.USER uid (by simp)]
      exact he6

/-- Witness for C8: concrete successful runs of all four orchestrators,
each leaving `balance_after` equal to the sum of the three pools of the
user row in the resulting store. -/
theorem claim8_witness :
    (∃ e, (∀ s' a, recharge Store.empty "u1" 100 "t1" none
        = Except.ok (s', a) →
      s'.events = Store.empty.events ++ [e] ∧
      e.balance_after = a.credits + a.free_credits + a.reward_credits)) ∧
    (∃ e, (∀ s' a, rewardOp Store.empty "u1" 7 "t2" none
        = Except.ok (s', a) →
      s'.events = Store.empty.events ++ [e] ∧
      e.balance_after = a.credits + a.free_credits + a.reward_credits)) ∧
    (∃ e, (∀ s' a, adjustment sampleUserStore5 "u1" CreditType.PERMANENT
        (-5) "t9" "n" = Except.ok (s', a) →
      s'.events = sampleUserStore5.events ++ [e] ∧
      e.balance_after = a.credits + a.free_credits + a.reward_credits)) ∧
    (∃ e, (∀ s' a, expenseMessage (1/4) sampleRichStore "a1" "u1" "m1"
        "m0" 4 (1/2) "u2" = Except.ok (s', a) →
      s'.events = sampleRichStore.events ++ [e] ∧
      e.balance_after
        = a.credits + a.free_credits + a.reward_credits)) := by
  refine ⟨?_, ?_, ?_, ?_⟩
  · obtain ⟨e, hev, _, _, hbal⟩ :=
      (claim8_balance_after_sum_of_pools 0 Store.empty "u1" "a" "m" "m0"
        "t1" "o" none "n" CreditType.PERMANENT 100 0 0).1 _ _
        (recharge_empty_eq "u1" "t1" none 100 (by norm_num))
    refine ⟨e, fun s' a h => ?_⟩
    rw [recharge_empty_eq "u1" "t1" none 100 (by norm_num)] at h
    injection h with h
    injection h with h1 h2
    subst h1
    subst h2
    exact ⟨hev, hbal⟩
  · obtain ⟨e, hev, _, _, hbal⟩ :=
      (claim8_balance_after_sum_of_pools 0 Store.empty "u1" "a" "m" "m0"
        "t2" "o" none "n" CreditType.PERMANENT 7 0 0).2.1 _ _
        rewardSample_eq
    refine ⟨e, fun s' a h => ?_⟩
    rw [rewardSample_eq] at h
    injection h with h
    injection h with h1 h2
    subst h1
    subst h2
    exact ⟨hev, hbal⟩
  · obtain ⟨e, hev, _, _, hbal⟩ :=
      (claim8_balance_after_sum_of_pools 0 sampleUserStore5 "u1" "a" "m"
        "m0" "t9" "o" none "n" CreditType.PERMANENT (-5) 0
        0).2.2.1 _ _ adjustmentNeg5_eq
    refine ⟨e, fun s' a h => ?_⟩
    rw [adjustmentNeg5_eq] at h
    injection h with h
    injection h with h1 h2
    subst h1
    subst h2
    exact ⟨hev, hbal⟩
  · obtain ⟨e, hev, _, _, hbal⟩ :=
      (claim8_balance_after_sum_of_pools (1/4) sampleRichStore "u1" "a1"
        "m1" "m0" "t" "u2" none "n" CreditType.PERMANENT 0 4
        (1/2)).2.2.2 _ _ expenseSample_eq
    refine ⟨e, fun s' a h => ?_⟩
    rw [expenseSample_eq] at h
    injection h with h
    injection h with h1 h2
    subst h1
    subst h2
    exact ⟨hev, hbal⟩

/-- A leg of event `eid` on side `cd` in pool `ct`. -/
def legMatches (eid : Nat) (cd : CreditDebit) (ct : CreditType)
    (t : CreditTransaction) : Bool :=
  t.event_id == eid && t.credit_debit == cd && t.credit_type == ct

/-- Sum of the `change_amount` of the legs of event `eid` on side `cd`,
grouped by `credit_type` `ct`. -/
def sumLegs (txs : List CreditTransaction) (eid : Nat)
    (cd : CreditDebit) (ct : CreditType) : ℚ :=
  ((txs.filter (legMatches eid cd ct)).map (·.change_amount)).sum

theorem sumLegs_append (l₁ l₂ : List CreditTransaction) (eid : Nat)
    (cd : CreditDebit) (ct : CreditType) :
    sumLegs (l₁ ++ l₂) eid cd ct
      = sumLegs l₁ eid cd ct + sumLegs l₂ eid cd ct := by
  unfold sumLegs
  rw [List.filter_append, List.map_append, List.sum_append]

theorem sumLegs_eq_zero_of_fresh {l : List CreditTransaction}
    {eid : Nat} (h : ∀ t ∈ l, t.event_id ≠ eid) (cd : CreditDebit)
    (ct : CreditType) : sumLegs l eid cd ct = 0 := by
  unfold sumLegs
  have : l.filter (legMatches eid cd ct) = [] := by
    rw [List.filter_eq_nil]
    intro t ht
    simp only [legMatches, Bool.and_eq_true, beq_iff_eq]
    rintro ⟨⟨he, -⟩, -⟩
    exact h t ht he
  rw [this]
  rfl

theorem getOrCreateInSession_nextId_ge (s : Store) (ot : OwnerType)
    (oid : String) :
    s.nextId ≤ (getOrCreateInSession s ot oid).1.nextId := by
  unfold getOrCreateInSession
  cases h : s.getAccount ot oid with
  | some a => exact le_refl _
  | none => exact Nat.le_succ _

/-- C1 (counterexample): double-entry conservation fails for MESSAGE
events with positive base amount.  In the spec's own tri-pool scenario
(base 4, platform fee 25 %, agent fee 50 %), the event's single DEBIT leg
carries `total_amount = 7` while its CREDIT legs carry only the fees
`1 + 2 = 3`: the base amount has no balancing CREDIT leg. -/
theorem claim1_counterexample :
    ∃ s' a e,
      expenseMessage (1/4) sampleRichStore "a1" "u1" "m1" "m0" 4 (1/2)
        "u2" = Except.ok (s', a) ∧
      s'.events = sampleRichStore.events ++ [e] ∧
      sumLegs s'.txs e.id CreditDebit.CREDIT e.credit_type = 3 ∧
      sumLegs s'.txs e.id CreditDebit.DEBIT e.credit_type = 7 ∧
      sumLegs s'.txs e.id CreditDebit.CREDIT e.credit_type
        ≠ sumLegs s'.txs e.id CreditDebit.DEBIT e.credit_type := by
  refine ⟨_, _, _, expenseSample_eq, rfl, ?_, ?_, ?_⟩ <;>
    simp [sumLegs, legMatches] <;> norm_num

/-- C1 (amended): for every event created by `recharge`, `reward` and
`adjustment`, the sum of the `change_amount` of its CREDIT legs equals
the sum of its DEBIT legs, per `credit_type`.  For a MESSAGE event
(under the spec's input contract `agent_fee_percentage ≥ 0`) the DEBIT
sum exceeds the CREDIT sum by exactly `base_amount` in the event's
`credit_type`: the DEBIT leg carries
`total_amount = base_amount + fee_platform_amount + fee_agent_amount`
while the CREDIT legs carry only `fee_platform_amount` and (when
positive) `fee_agent_amount`, so conservation holds only when
`base_amount = 0`.  The hypothesis on `s.txs` says existing legs
reference only already-issued event ids. -/
theorem claim1_amended_double_entry (pct : ℚ) (s : Store)
    (uid agent mid smid tx owner : String) (note : Option String)
    (noteS : String) (ct0 : CreditType) (amount base afp : ℚ)
    (hfresh : ∀ t ∈ s.txs, t.event_id < s.nextId) :
    (∀ s' a, recharge s uid amount tx note = Except.ok (s', a) →
      ∃ e, s'.events = s.events ++ [e] ∧ ∀ ct,
        sumLegs s'.txs e.id CreditDebit.CREDIT ct
          = sumLegs s'.txs e.id CreditDebit.DEBIT ct) ∧
    (∀ s' a, rewardOp s uid amount tx note = Except.ok (s', a) →
      ∃ e, s'.events = s.events ++ [e] ∧ ∀ ct,
        sumLegs s'.txs e.id CreditDebit.CREDIT ct
          = sumLegs s'.txs e.id CreditDebit.DEBIT ct) ∧
    (∀ s' a, adjustment s uid ct0 amount tx noteS
        = Except.ok (s', a) →
      ∃ e, s'.events = s.events ++ [e] ∧ ∀ ct,
        sumLegs s'.txs e.id CreditDebit.CREDIT ct
          = sumLegs s'.txs e.id CreditDebit.DEBIT ct) ∧
    (0 ≤ afp →
      ∀ s' a, expenseMessage pct s agent uid mid smid base afp owner
        = Except.ok (s', a) →
      ∃ e, s'.events = s.events ++ [e] ∧ e.base_amount = base ∧
        ∀ ct, sumLegs s'.txs e.id CreditDebit.DEBIT ct
          = sumLegs s'.txs e.id CreditDebit.CREDIT ct
            + (if ct = e.credit_type then base else 0)) := by
  refine ⟨?_, ?_, ?_, ?_⟩
  · intro s' a h
    obtain ⟨hc, hpos, sU, sP, p, hi, hd, hacc, hnow, hnext, hev, htx⟩ :=
      recharge_ok_spec h
    obtain ⟨_, _, _, _, _, _, hi7, hi8, _, hi10⟩ := incomeInSession_ok hi
    obtain ⟨_, _, _, _, _, _, hd7, hd8, _, hd10⟩ :=
      deductionInSession_ok hd
    rw [hd7, hi7] at hev
    rw [hd8, hi8] at htx
    have hge : s.nextId ≤ sP.nextId := by
      calc s.nextId
          ≤ (getOrCreateInSession s OwnerType.USER uid).1.nextId :=
            getOrCreateInSession_nextId_ge _ _ _
        _ = sU.nextId := hi10.symm
        _ ≤ (getOrCreateInSession sU OwnerType.PLATFORM
              PLATFORM_RECHARGE).1.nextId :=
            getOrCreateInSession_nextId_ge _ _ _
        _ = sP.nextId := hd10.symm
    have hne : ∀ t ∈ s.txs, t.event_id ≠ sP.nextId := fun t ht =>
      Nat.ne_of_lt (lt_of_lt_of_le (hfresh t ht) hge)
    refine ⟨_, hev, fun ct => ?_⟩
    rw [htx]
    dsimp only
    rw [sumLegs_append, sumLegs_append,
      sumLegs_eq_zero_of_fresh hne, sumLegs_eq_zero_of_fresh hne]
    cases ct <;> simp [sumLegs, legMatches]
  · intro s' a h
    obtain ⟨hc, hpos, sU, sP, p, hi, hd, hacc, hnow, hnext, hev, htx⟩ :=
      rewardOp_ok_spec h
    obtain ⟨_, _, _, _, _, _, hi7, hi8, _, hi10⟩ := incomeInSession_ok hi
    obtain ⟨_, _, _, _, _, _, hd7, hd8, _, hd10⟩ :=
      deductionInSession_ok hd
    rw [hd7, hi7] at hev
    rw [hd8, hi8] at htx
    have hge : s.nextId ≤ sP.nextId := by
      calc s.nextId
          ≤ (getOrCreateInSession s OwnerType.USER uid).1.nextId :=
            getOrCreateInSession_nextId_ge _ _ _
        _ = sU.nextId := hi10.symm
        _ ≤ (getOrCreateInSession sU OwnerType.PLATFORM
              PLATFORM_REWARD).1.nextId :=
            getOrCreateInSession_nextId_ge _ _ _
        _ = sP.nextId := hd10.symm
    have hne : ∀ t ∈ s.txs, t.event_id ≠ sP.nextId := fun t ht =>
      Nat.ne_of_lt (lt_of_lt_of_le (hfresh t ht) hge)
    refine ⟨_, hev, fun ct => ?_⟩
    rw [htx]
    dsimp only
    rw [sumLegs_append, sumLegs_append,
      sumLegs_eq_zero_of_fresh hne, sumLegs_eq_zero_of_fresh hne]
    cases ct <;> simp [sumLegs, legMatches]
  · intro s' a h
    obtain ⟨hc, h0, hn, sU, sP, p, hu, hp, hacc, hnow, hnext, hev,
      htx⟩ := adjustment_ok_spec h
    have hge : s.nextId ≤ sP.nextId := by
      by_cases hpos : 0 < amount
      · rw [if_pos hpos] at hu hp
        obtain ⟨_, _, _, _, _, _, _, _, _, hu10⟩ := incomeInSession_ok hu
        obtain ⟨_, _, _, _, _, _, _, _, _, hp10⟩ :=
          deductionInSession_ok hp
        calc s.nextId
            ≤ (getOrCreateInSession s OwnerType.USER uid).1.nextId :=
              getOrCreateInSession_nextId_ge _ _ _
          _ = sU.nextId := hu10.symm
          _ ≤ (getOrCreateInSession sU OwnerType.PLATFORM
                PLATFORM_ADJUSTMENT).1.nextId :=
              getOrCreateInSession_nextId_ge _ _ _
          _ = sP.nextId := hp10.symm
      · rw [if_neg hpos] at hu hp
        obtain ⟨_, _, _, _, _, _, _, _, _, hu10⟩ :=
          deductionInSession_ok hu
        obtain ⟨_, _, _, _, _, _, _, _, _, hp10⟩ := incomeInSession_ok hp
        calc s.nextId
            ≤ (getOrCreateInSession s OwnerType.USER uid).1.nextId :=
              getOrCreateInSession_nextId_ge _ _ _
          _ = sU.nextId := hu10.symm
          _ ≤ (getOrCreateInSession sU OwnerType.PLATFORM
                PLATFORM_ADJUSTMENT).1.nextId :=
              getOrCreateInSession_nextId_ge _ _ _
          _ = sP.nextId := hp10.symm
    have hne : ∀ t ∈ s.txs, t.event_id ≠ sP.nextId := fun t ht =>
      Nat.ne_of_lt (lt_of_lt_of_le (hfresh t ht) hge)
    have hevch : sP.events = s.events := by
      by_cases hpos : 0 < amount
      · rw [if_pos hpos] at hu hp
        obtain ⟨_, _, _, _, _, _, hu7, _, _, _⟩ := incomeInSession_ok hu
        obtain ⟨_, _, _, _, _, _, hp7, _, _, _⟩ :=
          deductionInSession_ok hp
        rw [hp7, hu7]
      · rw [if_neg hpos] at hu hp
        obtain ⟨_, _, _, _, _, _, hu7, _, _, _⟩ :=
          deductionInSession_ok hu
        obtain ⟨_, _, _, _, _, _, hp7, _, _, _⟩ := incomeInSession_ok hp
        rw [hp7, hu7]
    have htxch : sP.txs = s.txs := by
      by_cases hpos : 0 < amount
      · rw [if_pos hpos] at hu hp
        obtain ⟨_, _, _, _, _, _, _, hu8, _, _⟩ := incomeInSession_ok hu
        obtain ⟨_, _, _, _, _, _, _, hp8, _, _⟩ :=
          deductionInSession_ok hp
        rw [hp8, hu8]
      · rw [if_neg hpos] at hu hp
        obtain ⟨_, _, _, _, _, _, _, hu8, _, _⟩ :=
          deductionInSession_ok hu
        obtain ⟨_, _, _, _, _, _, _, hp8, _, _⟩ := incomeInSession_ok hp
        rw [hp8, hu8]
    rw [hevch] at hev
    rw [htxch] at htx
    refine ⟨_, hev, fun ct => ?_⟩
    rw [htx]
    dsimp only
    rw [sumLegs_append, sumLegs_append,
      sumLegs_eq_zero_of_fresh hne, sumLegs_eq_zero_of_fresh hne]
    by_cases hct : ct = ct0
    · subst hct
      by_cases hpos : 0 < amount <;>
        simp [sumLegs, legMatches, hpos]
    · have hct' : ct0 ≠ ct := fun hh => hct hh.symm
      by_cases hpos : 0 < amount <;>
        simp [sumLegs, legMatches, hpos, hct']
  · intro hafp s' a h
    by_cases hfa : 0 < feeAgentAmt uid owner base afp
    · obtain ⟨hc, hb, sU, ctr, sP, p, sA, aa, he, hp, ha, hacc, hnow,
        hnext, hev, htx⟩ := expenseMessage_ok_spec_agent hfa h
      obtain ⟨_, _, _, _, _, _, _, he8, he9, _, he10⟩ :=
        expenseInSession_ok he
      obtain ⟨_, _, _, _, _, _, hp7, hp8, _, hp10⟩ :=
        incomeInSession_ok hp
      obtain ⟨_, _, _, _, _, _, ha7, ha8, _, ha10⟩ :=
        incomeInSession_ok ha
      rw [ha7, hp7, he8] at hev
      rw [ha8, hp8, he9] at htx
      have hge : s.nextId ≤ sA.nextId := by
        calc s.nextId
            ≤ (getOrCreateInSession s OwnerType.USER uid).1.nextId :=
              getOrCreateInSession_nextId_ge _ _ _
          _ = sU.nextId := he10.symm
          _ ≤ (getOrCreateInSession sU OwnerType.PLATFORM
                PLATFORM_FEE).1.nextId :=
              getOrCreateInSession_nextId_ge _ _ _
          _ = sP.nextId := hp10.symm
          _ ≤ (getOrCreateInSession sP OwnerType.AGENT
                agent).1.nextId :=
              getOrCreateInSession_nextId_ge _ _ _
          _ = sA.nextId := ha10.symm
      have hne : ∀ t ∈ s.txs, t.event_id ≠ sA.nextId := fun t ht =>
        Nat.ne_of_lt (lt_of_lt_of_le (hfresh t ht) hge)
      refine ⟨_, hev, rfl, fun ct => ?_⟩
      rw [htx]
      dsimp only
      rw [sumLegs_append, sumLegs_append,
        sumLegs_eq_zero_of_fresh hne, sumLegs_eq_zero_of_fresh hne]
      by_cases hct : ct = ctr
      · subst hct
        simp [sumLegs, legMatches, totalAmt]
        ring
      · have hct' : ctr ≠ ct := fun hh => hct hh.symm
        simp [sumLegs, legMatches, hct', hct]
    · obtain ⟨hc, hb, sU, ctr, sP, p, he, hp, hacc, hnow, hnext, hev,
        htx⟩ := expenseMessage_ok_spec_noagent hfa h
      have hfa0 : feeAgentAmt uid owner base afp = 0 := by
        have hnn : 0 ≤ feeAgentAmt uid owner base afp := by
          unfold feeAgentAmt
          split
          · exact mul_nonneg (not_lt.mp hb) hafp
          · exact le_refl 0
        exact le_antisymm (not_lt.mp hfa) hnn
      obtain ⟨_, _, _, _, _, _, _, he8, he9, _, he10⟩ :=
        expenseInSession_ok he
      obtain ⟨_, _, _, _, _, _, hp7, hp8, _, hp10⟩ :=
        incomeInSession_ok hp
      rw [hp7, he8] at hev
      rw [hp8, he9] at htx
      have hge : s.nextId ≤ sP.nextId := by
        calc s.nextId
            ≤ (getOrCreateInSession s OwnerType.USER uid).1.nextId :=
              getOrCreateInSession_nextId_ge _ _ _
          _ = sU.nextId := he10.symm
          _ ≤ (getOrCreateInSession sU OwnerType.PLATFORM
                PLATFORM_FEE).1.nextId :=
              getOrCreateInSession_nextId_ge _ _ _
          _ = sP.nextId := hp10.symm
      have hne : ∀ t ∈ s.txs, t.event_id ≠ sP.nextId := fun t ht =>
        Nat.ne_of_lt (lt_of_lt_of_le (hfresh t ht) hge)
      refine ⟨_, hev, rfl, fun ct => ?_⟩
      rw [htx]
      dsimp only
      rw [sumLegs_append, sumLegs_append,
        sumLegs_eq_zero_of_fresh hne, sumLegs_eq_zero_of_fresh hne]
      by_cases hct : ct = ctr
      · subst hct
        simp [sumLegs, legMatches, totalAmt, hfa0]
        ring
      · have hct' : ctr ≠ ct := fun hh => hct hh.symm
        simp [sumLegs, legMatches, hct', hct]

/-- Witness for C1 (amended) at concrete runs of all four orchestrators
(the expense run is the spec's tri-pool scenario). -/
theorem claim1_witness :
    (∃ e, (∀ s' a, recharge Store.empty "u1" 100 "t1" none
        = Except.ok (s', a) →
      s'.events = Store.empty.events ++ [e] ∧ ∀ ct,
        sumLegs s'.txs e.id CreditDebit.CREDIT ct
          = sumLegs s'.txs e.id CreditDebit.DEBIT ct)) ∧
    (∃ e, (∀ s' a, expenseMessage (1/4) sampleRichStore "a1" "u1" "m1"
        "m0" 4 (1/2) "u2" = Except.ok (s', a) →
      s'.events = sampleRichStore.events ++ [e] ∧ e.base_amount = 4 ∧
      ∀ ct, sumLegs s'.txs e.id CreditDebit.DEBIT ct
        = sumLegs s'.txs e.id CreditDebit.CREDIT ct
          + (if ct = e.credit_type then 4 else 0))) := by
  constructor
  · obtain ⟨e, hev, hsum⟩ :=
      (claim1_amended_double_entry 0 Store.empty "u1" "a" "m" "m0" "t1"
        "o" none "n" CreditType.PERMANENT 100 0 0
        (by simp [Store.empty])).1 _ _
        (recharge_empty_eq "u1" "t1" none 100 (by norm_num))
    refine ⟨e, fun s' a h => ?_⟩
    rw [recharge_empty_eq "u1" "t1" none 100 (by norm_num)] at h
    injection h with h
    injection h with h1 h2
    subst h1
    subst h2
    exact ⟨hev, hsum⟩
  · obtain ⟨e, hev, hbase, hsum⟩ :=
      (claim1_amended_double_entry (1/4) sampleRichStore "u1" "a1" "m1"
        "m0" "t" "u2" none "n" CreditType.PERMANENT 0 4 (1/2)
        (by simp [sampleRichStore])).2.2.2 (by norm_num) _ _
        expenseSample_eq
    refine ⟨e, fun s' a h => ?_⟩
    rw [expenseSample_eq] at h
    injection h with h
    injection h with h1 h2
    subst h1
    subst h2
    exact ⟨hev, hbase, hsum⟩

/-- C9: `list_credit_events_by_user(user_id, direction, cursor?, limit,
event_type?)` returns at most `limit` events, all on the user's account
and matching `direction` (and `event_type` when given), in strictly
decreasing id order, only events with `id < cursor` when a cursor is
given; `has_more` is true exactly when a `(limit+1)`-th matching event
exists; and when the user's account does not exist it returns
`([], none, false)` without error.  The hypothesis states that event ids
(primary keys) are pairwise distinct. -/
theorem claim9_list_credit_events_by_user (s : Store) (uid : String)
    (dir : Direction) (cursor : Option Nat) (limit : Nat)
    (et : Option EventType) (hnd : (s.events.map (·.id)).Nodup) :
    (s.getAccount OwnerType.USER uid = none →
      listCreditEventsByUser s uid dir cursor limit et
        = ([], none, false)) ∧
    (∀ acct, s.getAccount OwnerType.USER uid = some acct →
      (listCreditEventsByUser s uid dir cursor limit et).1.length
        ≤ limit ∧
      (∀ e ∈ (listCreditEventsByUser s uid dir cursor limit et).1,
        e.account_id = acct.id ∧ e.direction = dir ∧
        (∀ t, et = some t → e.event_type = t) ∧
        (∀ c, cursor = some c → e.id < c)) ∧
      (listCreditEventsByUser s uid dir cursor limit et).1.Pairwise
        (fun e₁ e₂ => e₂.id < e₁.id) ∧
      ((listCreditEventsByUser s uid dir cursor limit et).2.2 = true ↔
        limit
          < (s.events.filter
              (eventMatches acct.id dir et cursor)).length)) := by
  constructor
  · intro hacc
    unfold listCreditEventsByUser
    rw [hacc]
  · intro acct hacc
    unfold listCreditEventsByUser
    rw [hacc]
    dsimp only
    have hperm := List.perm_insertionSort evIdGe
      (s.events.filter (eventMatches acct.id dir et cursor))
    have hsorted := List.sorted_insertionSort evIdGe
      (s.events.filter (eventMatches acct.id dir et cursor))
    have hsub : (s.events.filter
        (eventMatches acct.id dir et cursor)).Sublist s.events :=
      List.filter_sublist _
    have hndS : (((s.events.filter
        (eventMatches acct.id dir et cursor)).insertionSort
          evIdGe).map (·.id)).Nodup := by
      refine ((hperm.map (·.id)).nodup_iff).mpr ?_
      exact (hsub.map (·.id)).nodup hnd
    have hstrict : ((s.events.filter
        (eventMatches acct.id dir et cursor)).insertionSort
          evIdGe).Pairwise (fun e₁ e₂ => e₂.id < e₁.id) := by
      have hne : ((s.events.filter
          (eventMatches acct.id dir et cursor)).insertionSort
            evIdGe).Pairwise (fun e₁ e₂ => e₁.id ≠ e₂.id) :=
        List.pairwise_map.mp hndS
      have hand := List.Pairwise.and hsorted hne
      exact hand.imp (fun hab =>
        lt_of_le_of_ne hab.1 (fun hh => hab.2 hh.symm))
    refine ⟨?_, ?_, ?_, ?_⟩
    · rw [List.take_take]
      rw [List.length_take]
      calc limit ⊓ (limit + 1) ⊓ ((s.events.filter
            (eventMatches acct.id dir et cursor)).insertionSort
              evIdGe).length
          ≤ limit ⊓ (limit + 1) := min_le_left _ _
        _ ≤ limit := min_le_left _ _
    · intro e he
      have heS : e ∈ (s.events.filter
          (eventMatches acct.id dir et cursor)).insertionSort evIdGe :=
        List.Sublist.mem he ((List.take_sublist _ _).trans
          (List.take_sublist _ _))
      have heF : e ∈ s.events.filter
          (eventMatches acct.id dir et cursor) := hperm.mem_iff.mp heS
      have hm := (List.mem_filter.mp heF).2
      simp only [eventMatches, Bool.and_eq_true, beq_iff_eq] at hm
      refine ⟨hm.1.1.1, hm.1.1.2, ?_, ?_⟩
      · intro t ht
        subst ht
        simpa using hm.1.2
      · intro c hc
        subst hc
        simpa using hm.2
    · exact List.Pairwise.sublist ((List.take_sublist _ _).trans
        (List.take_sublist _ _)) hstrict
    · rw [decide_eq_true_iff]
      rw [List.length_take]
      rw [hperm.length_eq]
      rw [lt_min_iff]
      constructor
      · exact fun h => h.2
      · exact fun h => ⟨Nat.lt_succ_self limit, h⟩

/-- Witness store for C9: a user account and three matching INCOME
events (plus one EXPENSE event), ids descending 13, 12, 11, 10. -/
def sampleListStore : Store :=
  { accounts := [⟨0, OwnerType.USER, "u1", 0, 0, 0, 0, 0, 0⟩],
    events := [
      ⟨10, EventType.RECHARGE, UpstreamType.API, "a", Direction.INCOME,
        0, 1, CreditType.PERMANENT, 1, 1, 1, none, none, none, none,
        none, none, none, none⟩,
      ⟨11, EventType.RECHARGE, UpstreamType.API, "b", Direction.INCOME,
        0, 1, CreditType.PERMANENT, 2, 1, 1, none, none, none, none,
        none, none, none, none⟩,
      ⟨12, EventType.MESSAGE, UpstreamType.EXECUTOR, "c",
        Direction.EXPENSE, 0, 1, CreditType.PERMANENT, 1, 1, 1, none,
        none, none, none, none, none, none, none⟩,
      ⟨13, EventType.RECHARGE, UpstreamType.API, "d", Direction.INCOME,
        0, 1, CreditType.PERMANENT, 2, 1, 1, none, none, none, none,
        none, none, none, none⟩],
    txs := [], nextId := 14, now := 0 }

/-- Witness for C9 at the concrete store, limit 2, INCOME direction:
at most 2 events, all matching, strictly descending, `has_more` true
exactly when a third matching event exists. -/
theorem claim9_witness :
    (sampleListStore.getAccount OwnerType.USER "u1" = none →
      listCreditEventsByUser sampleListStore "u1" Direction.INCOME none
        2 none = ([], none, false)) ∧
    (∀ acct, sampleListStore.getAccount OwnerType.USER "u1"
        = some acct →
      (listCreditEventsByUser sampleListStore "u1" Direction.INCOME
        none 2 none).1.length ≤ 2 ∧
      (∀ e ∈ (listCreditEventsByUser sampleListStore "u1"
          Direction.INCOME none 2 none).1,
        e.account_id = acct.id ∧ e.direction = Direction.INCOME ∧
        (∀ t, (none : Option EventType) = some t →
          e.event_type = t) ∧
        (∀ c, (none : Option Nat) = some c → e.id < c)) ∧
      (listCreditEventsByUser sampleListStore "u1" Direction.INCOME
        none 2 none).1.Pairwise (fun e₁ e₂ => e₂.id < e₁.id) ∧
      ((listCreditEventsByUser sampleListStore "u1" Direction.INCOME
          none 2 none).2.2 = true ↔
        2 < (sampleListStore.events.filter
          (eventMatches acct.id Direction.INCOME none none)).length)) :=
  claim9_list_credit_events_by_user sampleListStore "u1"
    Direction.INCOME none 2 none (by simp [sampleListStore])

end Credit
